import Mathlib

/-!
Shallow embedding of the parameter/value persistence core of the hpcflow
repository (`src/hpcflow/sdk/core/parameters.py`), together with spec-modelled
definitions for the few collaborators the claims need that live outside `src`
(the persistent store interface, the input-source resolver and the batch-update
protocol).  Machine values are modelled by a small inductive `Val`; Python
exceptions by the inductive `PyErr`; fallible code returns `Except PyErr _`.
-/

deriving instance DecidableEq for Except

namespace HpcFlow

/-- Scalar Python values that appear as parameter payloads: `None`, ints and
strings.  Floats are not needed by any claim. -/
inductive Atom where
  | pynone : Atom
  | int : Int → Atom
  | str : String → Atom
deriving DecidableEq, Repr

/-- A parameter payload value: either a scalar atom or a flat dict of atoms.
A bound value-class instance is represented by its field dict, which is also
its serialized (store) representation; the spec's round-trip equality for
value-classes is field-wise, so instance and field dict are identified. -/
inductive Val where
  | atom : Atom → Val
  | dict : List (String × Atom) → Val
deriving DecidableEq, Repr

/-- Python exceptions raised by the modelled code, one constructor per raise
site (each constructor carries the data interpolated into the source's message
string).  `referentialIntegrityError` is the name the spec uses for the
missing-reference failure; no code under `src` raises it (the code raises the
builtin `RuntimeError`), it is included so that the spec's statement can be
expressed. -/
inductive PyErr where
  | indexError : PyErr
  | typeError : String → PyErr
  | attributeError : String → PyErr
  | runtimeError : String → List Nat → PyErr
  | valueErrorMustSpecifyTaskRef : PyErr
  | valueErrorMustSpecifyImportRef : PyErr
  | valueErrorBadSourceType : String → PyErr
  | valueErrorBadTaskSourceType : String → PyErr
  | valueErrorNotUnderstood : String → PyErr
  | malformedParameterPathNotInputsResources : String → PyErr
  | malformedParameterPathBadScope : String → PyErr
  | unknownResourceSpecItem : List String → List String → PyErr
  | invalidIdentifier : String → PyErr
  | workflowParameterMissing : Nat → PyErr
  | missingInputs : List String → PyErr
  | workflowBatchUpdateFailed : PyErr
  | referentialIntegrityError : String → PyErr
deriving DecidableEq, Repr

/-- True for the constructors that model a raise of the Python builtin
`ValueError` in `parameters.py`; builtin `IndexError` / `TypeError` /
`AttributeError` / `RuntimeError` raises and the hpcflow-specific exception
classes (whose hierarchy is defined outside `src`) are not `ValueError`. -/
def PyErr.isValueError : PyErr → Bool
  | .valueErrorMustSpecifyTaskRef => true
  | .valueErrorMustSpecifyImportRef => true
  | .valueErrorBadSourceType _ => true
  | .valueErrorBadTaskSourceType _ => true
  | .valueErrorNotUnderstood _ => true
  | _ => false

/-- True only for the error the spec names `ReferentialIntegrityError`. -/
def PyErr.isReferentialIntegrity : PyErr → Bool
  | .referentialIntegrityError _ => true
  | _ => false

/-- Provenance record passed to the store when writing one value; sequence
holders tag each item with its position (`source["sequence_idx"] = idx`). -/
structure Source where
  base : String
  sequence_idx : Option Nat
deriving DecidableEq, Repr

/-- Modelled from the spec: the persistent store (the workflow's
`_add_parameter_data` / `_get_parameter_data` / `check_parameters_exist`
methods) lives outside `src`; per spec section 6 it writes one opaque scalar
payload and returns a unique integer reference, reads back the exact
serialized representation, and probes existence without materializing. -/
structure Store where
  params : List (Val × Source)
deriving DecidableEq, Repr

/-- Modelled from the spec: `store.add_parameter_data(value, provenance) -> ref`;
the reference is the next free integer index. -/
def Store.add_parameter_data (st : Store) (v : Val) (src : Source) : Nat × Store :=
  (st.params.length, ⟨st.params ++ [(v, src)]⟩)

/-- Modelled from the spec: `store.get_parameter_data(ref) -> value`, the exact
round-trip of the serialized representation; a missing reference raises
`WorkflowParameterMissingError`. -/
def Store.get_parameter_data (st : Store) (ref : Nat) : Except PyErr Val :=
  match st.params.get? ref with
  | some e => .ok e.1
  | none => .error (.workflowParameterMissing ref)

/-- Modelled from the spec: existence probe for one reference. -/
def Store.param_exists (st : Store) (ref : Nat) : Bool :=
  ref < st.params.length

/-- Modelled from the spec: `store.check_parameters_exist(refs)` returns one
boolean per reference. -/
def Store.check_parameters_exist (st : Store) (refs : List Nat) : List Bool :=
  refs.map st.param_exists

/-- A registered `ParameterValue` subclass: its class name and its declared
`_typ` tag (`None` on the base class, a string on concrete subclasses). -/
structure ValueClass where
  clsName : String
  typ : Option String
deriving DecidableEq, Repr

/-- The value-class binding loop of `Parameter.__post_init__`:
`for i in ParameterValue.__subclasses__(): if i._typ == self.typ:
self._value_class = i` — every match overwrites the previous one, so the
binding that survives is the last matching registered class. -/
def bindValueClass (registry : List ValueClass) (typ : String) : Option ValueClass :=
  registry.foldl (fun acc i => if i.typ == some typ then some i else acc) none

/-- ASCII-range model of `str.lower` on one character (65–90 are `A`–`Z`). -/
def asciiLowerChar (c : Char) : Char :=
  if 65 ≤ c.toNat ∧ c.toNat ≤ 90 then Char.ofNat (c.toNat + 32) else c

/-- ASCII-range model of `str.upper` on one character (97–122 are `a`–`z`). -/
def asciiUpperChar (c : Char) : Char :=
  if 97 ≤ c.toNat ∧ c.toNat ≤ 122 then Char.ofNat (c.toNat - 32) else c

/-- Model of Python `str.lower()` (ASCII range; every string the claims touch
is ASCII). -/
def pyLower (s : String) : String :=
  String.mk (s.data.map asciiLowerChar)

/-- Model of Python `str.upper()` (ASCII range). -/
def pyUpper (s : String) : String :=
  String.mk (s.data.map asciiUpperChar)

/-- Splitting a character list on `.`, mirroring Python `str.split(".")`:
the result is never empty and empty segments are kept. -/
def splitCharsOnDot : List Char → List String
  | [] => [""]
  | c :: cs =>
    let rest := splitCharsOnDot cs
    if c = '.' then "" :: rest
    else
      match rest with
      | [] => [String.mk [c]]
      | r :: rs => String.mk (c :: r.data) :: rs

/-- Model of Python `s.split(".")`. -/
def pySplitDot (s : String) : List String :=
  splitCharsOnDot s.data

/-- Model of Python `"sep".join(parts)`. -/
def joinWith (sep : String) : List String → String
  | [] => ""
  | [x] => x
  | x :: y :: rest => x ++ sep ++ joinWith sep (y :: rest)

/-- Modelled from the spec: `check_valid_py_identifier` lives in
`hpcflow.sdk.core.utils`, which is not under `src`; per spec section 4.1 a
parameter `typ` that is not a valid (Python) identifier is rejected with
`InvalidIdentifier`.  A valid identifier is non-empty, starts with a letter or
underscore and continues with letters, digits or underscores (ASCII model). -/
def isPyIdentifier (s : String) : Bool :=
  match s.data with
  | [] => false
  | c :: cs =>
    (c.isAlpha ∨ c = '_') ∧ cs.all (fun d => d.isAlphanum ∨ d = '_')

/-- Modelled from the spec: identifier validation entry point; returns the
`typ` unchanged when valid, else fails with `InvalidIdentifier`. -/
def check_valid_py_identifier (s : String) : Except PyErr String :=
  if isPyIdentifier s then .ok s else .error (.invalidIdentifier s)

/-- A typed parameter definition (`Parameter` dataclass): its `typ` and the
value class bound by `__post_init__` (if any).  `is_file` and
`sub_parameters` play no role in any claim and keep their defaults. -/
structure Parameter where
  typ : String
  is_file : Bool
  value_class : Option ValueClass
deriving DecidableEq, Repr

/-- `Parameter.__post_init__`: validate `typ` as an identifier, then scan the
registered value classes and bind the surviving match (see `bindValueClass`). -/
def Parameter.make (registry : List ValueClass) (typ : String) :
    Except PyErr Parameter :=
  match check_valid_py_identifier typ with
  | .error e => .error e
  | .ok t => .ok ⟨t, false, bindValueClass registry t⟩

/-- The allowed resource item names, `ResourceSpec.ALLOWED_PARAMETERS`. -/
def ALLOWED_PARAMETERS : List String := ["scratch", "num_cores"]

/-- `ValueSequence._validate_parameter_path`, parametrised by the action-scope
parser `scopeOk` (`ActionScope.from_json_like` is not under `src`; the spec
says only that the second segment of a `resources` path must parse as a valid
action-scope token, any parse failure — including the `IndexError` when the
segment is absent — being caught and re-raised as `MalformedParameterPathError`).
Returns the lower-cased path on success. -/
def validate_parameter_path (scopeOk : String → Bool) (path : String) :
    Except PyErr String :=
  match pySplitDot (pyLower path) with
  | "inputs" :: _ => .ok (pyLower path)
  | "resources" :: scope :: rest =>
    if scopeOk scope then
      match rest with
      | item :: _ =>
        if item ∈ ALLOWED_PARAMETERS then .ok (pyLower path)
        else .error (.unknownResourceSpecItem [item] ALLOWED_PARAMETERS)
      | [] => .ok (pyLower path)
    else .error (.malformedParameterPathBadScope (pyLower path))
  | ["resources"] => .error (.malformedParameterPathBadScope (pyLower path))
  | _ => .error (.malformedParameterPathNotInputsResources (pyLower path))

/-- The `ValueSequence` value holder.  `_values` is the in-memory (pending)
payload, `_values_group_idx` the persistent references; `_parameter` is
assigned by the parent element set only when this is an `inputs` sequence
(it stays `None` for `resources` sequences).  The `_workflow` back-pointer is
replaced by passing the store explicitly to the accessors. -/
structure ValueSequence where
  path : String
  nesting_order : Int
  is_unused : Bool
  _values : Option (List Val)
  _values_group_idx : Option (List Nat)
  _parameter : Option Parameter
deriving DecidableEq, Repr

/-- `ValueSequence.__init__`: validates the path and starts in the pending
state with no bound parameter. -/
def ValueSequence.make (scopeOk : String → Bool) (path : String)
    (nesting_order : Int) (values : List Val) (is_unused : Bool) :
    Except PyErr ValueSequence :=
  match validate_parameter_path scopeOk path with
  | .error e => .error e
  | .ok p => .ok ⟨p, nesting_order, is_unused, some values, none, none⟩

/-- The write loop of `ValueSequence.make_persistent`: write each payload value
in order, tagging a deep-copied `source` with the item's `sequence_idx`. -/
def writeSeq (st : Store) (src : Source) (idx : Nat) :
    List Val → List Nat × Store
  | [] => ([], st)
  | v :: vs =>
    let r := st.params.length
    let st1 : Store := ⟨st.params ++ [(v, { src with sequence_idx := some idx })]⟩
    let p := writeSeq st1 src (idx + 1) vs
    (r :: p.1, p.2)

/-- `ValueSequence.make_persistent`: if already persistent, check every
reference still exists (raising the builtin `RuntimeError` when one is
missing) and return the existing references with `is_new = False`; if pending,
write the payload in order, transition to persistent, discard the payload and
return the fresh references with `is_new = True`. -/
def ValueSequence.make_persistent (vs : ValueSequence) (st : Store)
    (src : Source) :
    Except PyErr ((String × List Nat × Bool) × ValueSequence × Store) :=
  match vs._values_group_idx with
  | some data_ref =>
    if (st.check_parameters_exist data_ref).all id then
      .ok ((vs.path, data_ref, false), vs, st)
    else .error (.runtimeError "ValueSequence" data_ref)
  | none =>
    match vs._values with
    | none => .error (.typeError "NoneType object is not iterable")
    | some vals =>
      let p := writeSeq st src 0 vals
      .ok ((vs.path, p.1, true),
        { vs with _values := none, _values_group_idx := some p.1 }, p.2)

/-- The per-reference body of the `ValueSequence.values` read loop: fetch the
stored value, then apply `self.parameter._value_class` — an `AttributeError`
when `_parameter` is `None`, a reconstruction `cls(**val)` when a value class
is bound (a `TypeError` unless the stored value is a dict), and the raw value
otherwise. -/
def readValue (param : Option Parameter) (st : Store) (ref : Nat) :
    Except PyErr Val :=
  match st.get_parameter_data ref with
  | .error e => .error e
  | .ok v =>
    match param with
    | none => .error (.attributeError "NoneType object has no attribute _value_class")
    | some p =>
      match p.value_class with
      | none => .ok v
      | some _ =>
        match v with
        | .dict fs => .ok (.dict fs)
        | .atom _ => .error (.typeError "argument after ** must be a mapping")

/-- The read loop of `ValueSequence.values` over the reference list. -/
def readValues (param : Option Parameter) (st : Store) :
    List Nat → Except PyErr (List Val)
  | [] => .ok []
  | r :: rs =>
    match readValue param st r with
    | .error e => .error e
    | .ok v =>
      match readValues param st rs with
      | .error e => .error e
      | .ok vs => .ok (v :: vs)

/-- `ValueSequence.values`: dereference every reference through the store when
persistent (reconstructing via the bound value class), else return the
in-memory payload (`None` when both representations are absent). -/
def ValueSequence.values (vs : ValueSequence) (st : Store) :
    Except PyErr (Option (List Val)) :=
  match vs._values_group_idx with
  | some refs =>
    match readValues vs._parameter st refs with
    | .error e => .error e
    | .ok vals => .ok (some vals)
  | none => .ok vs._values

/-- Strip leading and trailing `.` characters, Python's `path.strip(".")`. -/
def stripDots (s : String) : String :=
  String.mk (((s.data.dropWhile (fun c => c = '.')).reverse.dropWhile
    (fun c => c = '.')).reverse)

/-- The `InputValue` value holder (scalar counterpart of `ValueSequence`).
Python's `None` doubles as the discarded-payload sentinel for `_value`, so
`_value : Val` with `Atom.pynone` playing `None`; the pending/persistent
state is carried by `_value_group_idx`.  The `_element_set` / `_schema_input`
back-pointers are replaced by passing the store explicitly. -/
structure InputValue where
  parameter : Parameter
  path : Option String
  _value : Val
  _value_group_idx : Option Nat
deriving DecidableEq, Repr

/-- `InputValue.__init__`: the sub-path is `(path.strip(".") if path else
None) or None`, i.e. `None`, the empty string and dots-only strings all
normalize to `None`, anything else to its dot-stripped form. -/
def InputValue.make (parameter : Parameter) (value : Val)
    (path : Option String) : InputValue :=
  let p : Option String :=
    match path with
    | none => none
    | some s =>
      if s = "" then none
      else if stripDots s = "" then none else some (stripDots s)
  ⟨parameter, p, value, none⟩

/-- `InputValue.normalised_inputs_path`: the parameter type followed by the
sub-path when one is set. -/
def InputValue.normalised_inputs_path (iv : InputValue) : String :=
  iv.parameter.typ ++ (match iv.path with | none => "" | some p => "." ++ p)

/-- `InputValue.normalised_path`: `inputs.` followed by the inputs path. -/
def InputValue.normalised_path (iv : InputValue) : String :=
  "inputs." ++ iv.normalised_inputs_path

/-- `AbstractInputValue.make_persistent` as it acts on an `InputValue`: the
persistent branch checks the single reference (raising the builtin
`RuntimeError` when missing) and reports `is_new = False`; the pending branch
writes `_value`, records the reference and discards the payload (sets it to
`None`). -/
def InputValue.make_persistent (iv : InputValue) (st : Store) (src : Source) :
    Except PyErr ((String × List Nat × Bool) × InputValue × Store) :=
  match iv._value_group_idx with
  | some data_ref =>
    if st.param_exists data_ref then
      .ok ((iv.normalised_path, [data_ref], false), iv, st)
    else .error (.runtimeError "InputValue" [data_ref])
  | none =>
    let p := st.add_parameter_data iv._value src
    .ok ((iv.normalised_path, [p.1], true),
      { iv with _value_group_idx := some p.1, _value := .atom .pynone }, p.2)

/-- `AbstractInputValue.value`: dereference through the store when persistent
(reconstructing via the bound value class), else the in-memory payload. -/
def InputValue.value (iv : InputValue) (st : Store) : Except PyErr Val :=
  match iv._value_group_idx with
  | some r => readValue (some iv.parameter) st r
  | none => .ok iv._value

/-- The `ResourceSpec` value holder: an action scope (modelled by its token
string; `ActionScope` itself is not under `src` and its `to_string` is the
token) plus the restricted resource parameters, with the same
pending/persistent duality.  The `_workflow` back-pointer is replaced by
passing the store explicitly. -/
structure ResourceSpec where
  scope : String
  _scratch : Atom
  _num_cores : Atom
  _value_group_idx : Option Nat
deriving DecidableEq, Repr

/-- `ResourceSpec.__init__` (a missing scope defaults to the `any` scope). -/
def ResourceSpec.make (scope : Option String) (scratch num_cores : Atom) :
    ResourceSpec :=
  ⟨scope.getD "any", scratch, num_cores, none⟩

/-- `ResourceSpec._get_members`: the user-specified resource parameters as a
dict, in attribute order. -/
def ResourceSpec.members (rs : ResourceSpec) : List (String × Atom) :=
  [("scratch", rs._scratch), ("num_cores", rs._num_cores)]

/-- `ResourceSpec.normalised_path`: `resources.` followed by the scope token. -/
def ResourceSpec.normalised_path (rs : ResourceSpec) : String :=
  "resources." ++ rs.scope

/-- `ResourceSpec._json_like_constructor`: `value_group_idx` is popped first
(modelled as a separate argument); `cls(**json_like)` raises `TypeError` when
any key is outside `{scope, scratch, num_cores}`, which is converted into a
single `UnknownResourceSpecItemError` naming every bad key and the allowed
set. -/
def ResourceSpec.json_like_constructor (value_group_idx : Option Nat)
    (json_like : List (String × Atom)) : Except PyErr ResourceSpec :=
  let keys := json_like.map Prod.fst
  if keys.all (fun k => k = "scope" ∨ k ∈ ALLOWED_PARAMETERS) then
    let scope : Option String :=
      match json_like.lookup "scope" with
      | some (.str s) => some s
      | _ => none
    let scratch := (json_like.lookup "scratch").getD .pynone
    let num_cores := (json_like.lookup "num_cores").getD .pynone
    .ok { ResourceSpec.make scope scratch num_cores with
          _value_group_idx := value_group_idx }
  else
    let bad_keys := (keys.filter
      (fun k => ¬(k = "scope" ∨ k ∈ ALLOWED_PARAMETERS))).dedup
    .error (.unknownResourceSpecItem bad_keys ALLOWED_PARAMETERS)

/-- `ResourceSpec.make_persistent`: the persistent branch checks the single
reference (builtin `RuntimeError` when missing); the pending branch writes the
members dict, records the reference and discards the in-memory parameters. -/
def ResourceSpec.make_persistent (rs : ResourceSpec) (st : Store)
    (src : Source) :
    Except PyErr ((String × List Nat × Bool) × ResourceSpec × Store) :=
  match rs._value_group_idx with
  | some data_ref =>
    if st.param_exists data_ref then
      .ok ((rs.normalised_path, [data_ref], false), rs, st)
    else .error (.runtimeError "ResourceSpec" [data_ref])
  | none =>
    let p := st.add_parameter_data (.dict rs.members) src
    .ok ((rs.normalised_path, [p.1], true),
      { rs with _value_group_idx := some p.1,
                _num_cores := .pynone, _scratch := .pynone }, p.2)

/-- `ResourceSpec._get_value`: the full members dict, dereferenced through the
store when persistent. -/
def ResourceSpec.get_value (rs : ResourceSpec) (st : Store) :
    Except PyErr Val :=
  match rs._value_group_idx with
  | some r => st.get_parameter_data r
  | none => .ok (.dict rs.members)

/-- `ResourceSpec._get_value(value_name)`: `dict.get` on the members (Python
returns `None` for a missing key; a non-dict stored value would raise
`AttributeError`). -/
def ResourceSpec.get_value_name (rs : ResourceSpec) (st : Store)
    (name : String) : Except PyErr Atom :=
  match rs.get_value st with
  | .error e => .error e
  | .ok (.dict fs) => .ok ((fs.lookup name).getD .pynone)
  | .ok (.atom _) => .error (.attributeError "object has no attribute get")

/-- The `ResourceSpec.scratch` property. -/
def ResourceSpec.scratch (rs : ResourceSpec) (st : Store) :
    Except PyErr Atom :=
  rs.get_value_name st "scratch"

/-- The `ResourceSpec.num_cores` property. -/
def ResourceSpec.num_cores (rs : ResourceSpec) (st : Store) :
    Except PyErr Atom :=
  rs.get_value_name st "num_cores"

/-- Decimal digit to character, `0 ↦ '0'`, ..., `9 ↦ '9'`. -/
def digitToChar (d : Nat) : Char :=
  Char.ofNat (48 + d)

/-- ASCII decimal digit test (48–57 are `0`–`9`). -/
def isDigitChar (c : Char) : Bool :=
  48 ≤ c.toNat ∧ c.toNat ≤ 57

/-- Numeric value of an ASCII digit character. -/
def digitVal (c : Char) : Nat :=
  c.toNat - 48

/-- Digit characters of a positive natural, most significant first; the first
argument is structural fuel (any bound on the value works). -/
def natToChars : Nat → Nat → List Char
  | 0, _ => []
  | fuel + 1, n =>
    if n = 0 then [] else natToChars fuel (n / 10) ++ [digitToChar (n % 10)]

/-- Model of Python `str` on a natural number. -/
def natToStrPy (n : Nat) : String :=
  if n = 0 then "0" else String.mk (natToChars n n)

/-- Model of Python `str` on an integer. -/
def intToStrPy : Int → String
  | .ofNat n => natToStrPy n
  | .negSucc n => String.mk ('-' :: (natToStrPy (n + 1)).data)

/-- Model of Python `int(s)` on an unsigned digit string (the forms `str`
produces; Python additionally tolerates surrounding whitespace, a leading
`+` and underscores between digits, which no claim exercises). -/
def parseNatChars (cs : List Char) : Option Nat :=
  if cs ≠ [] ∧ cs.all isDigitChar then
    some (cs.foldl (fun a c => a * 10 + digitVal c) 0)
  else none

/-- Model of Python `int(s)`, with an optional leading minus sign. -/
def parseIntPy (s : String) : Option Int :=
  match s.data with
  | '-' :: rest =>
    match parseNatChars rest with
    | some k => some (-(k : Int))
    | none => none
  | cs =>
    match parseNatChars cs with
    | some k => some ((k : Int))
    | none => none

/-- A task/import reference: parsed as an integer when possible, else kept as
a symbolic string. -/
inductive Ref where
  | intRef : Int → Ref
  | strRef : String → Ref
deriving DecidableEq, Repr

/-- The `try: ref = int(ref) except ValueError: pass` idiom of
`InputSource._parse_from_string`. -/
def pyIntOrStr (s : String) : Ref :=
  match parseIntPy s with
  | some n => .intRef n
  | none => .strRef s

/-- Model of Python `str` on an optional reference (`str(None)` is `"None"`,
`str` of a string is the string itself). -/
def refToStr : Option Ref → String
  | none => "None"
  | some (.intRef n) => intToStrPy n
  | some (.strRef s) => s

/-- The `InputSourceType` enum. -/
inductive InputSourceType where
  | IMPORT : InputSourceType
  | LOCAL : InputSourceType
  | DEFAULT : InputSourceType
  | TASK : InputSourceType
deriving DecidableEq, Repr

/-- `InputSourceType.name.lower()`. -/
def InputSourceType.pyName : InputSourceType → String
  | .IMPORT => "import"
  | .LOCAL => "local"
  | .DEFAULT => "default"
  | .TASK => "task"

/-- The `TaskSourceType` enum. -/
inductive TaskSourceType where
  | INPUT : TaskSourceType
  | OUTPUT : TaskSourceType
  | ANY : TaskSourceType
deriving DecidableEq, Repr

/-- `TaskSourceType.name.lower()`. -/
def TaskSourceType.pyName : TaskSourceType → String
  | .INPUT => "input"
  | .OUTPUT => "output"
  | .ANY => "any"

/-- `getattr(InputSourceType, token.upper())` as a partial lookup. -/
def sourceTypeOfToken (t : String) : Option InputSourceType :=
  match pyUpper t with
  | "IMPORT" => some .IMPORT
  | "LOCAL" => some .LOCAL
  | "DEFAULT" => some .DEFAULT
  | "TASK" => some .TASK
  | _ => none

/-- `InputSource._validate_source_type` on a string token: the `AttributeError`
from the enum lookup is re-raised as a `ValueError` naming the token (the
message also lists the allowed variant names). -/
def validate_source_type_str (t : String) : Except PyErr InputSourceType :=
  match sourceTypeOfToken t with
  | some ty => .ok ty
  | none => .error (.valueErrorBadSourceType t)

/-- `getattr(TaskSourceType, token.upper())` as a partial lookup. -/
def taskSourceTypeOfToken (t : String) : Option TaskSourceType :=
  match pyUpper t with
  | "INPUT" => some .INPUT
  | "OUTPUT" => some .OUTPUT
  | "ANY" => some .ANY
  | _ => none

/-- `InputSource._validate_task_source_type` on a string token. -/
def validate_task_source_type_str (t : String) : Except PyErr TaskSourceType :=
  match taskSourceTypeOfToken t with
  | some ty => .ok ty
  | none => .error (.valueErrorBadTaskSourceType t)

/-- The `InputSource` value object; `__eq__` compares exactly these seven
fields, so structural equality is the source's equality.  The element filter
holds integer indices; `where` (an element filter object not exercised by any
claim) is modelled opaquely as an optional string. -/
structure InputSource where
  source_type : InputSourceType
  import_ref : Option Ref
  task_ref : Option Ref
  task_source_type : Option TaskSourceType
  elements : Option (List Int)
  path : Option String
  whereFilter : Option String
deriving DecidableEq, Repr

/-- `InputSource.__init__` with the source type already an enum member: a
`TASK` source must carry a task reference and defaults its task-source type to
`OUTPUT`; an `IMPORT` source must carry an import reference. -/
def InputSource.make (source_type : InputSourceType)
    (import_ref task_ref : Option Ref)
    (task_source_type : Option TaskSourceType) (elements : Option (List Int))
    (path whereFilter : Option String) : Except PyErr InputSource :=
  match source_type with
  | .TASK =>
    match task_ref with
    | none => .error .valueErrorMustSpecifyTaskRef
    | some tr =>
      let tst := match task_source_type with
        | none => some TaskSourceType.OUTPUT
        | some t => some t
      .ok ⟨.TASK, import_ref, some tr, tst, elements, path, whereFilter⟩
  | .IMPORT =>
    match import_ref with
    | none => .error .valueErrorMustSpecifyImportRef
    | some _ =>
      .ok ⟨.IMPORT, import_ref, task_ref, task_source_type, elements, path,
        whereFilter⟩
  | ty => .ok ⟨ty, import_ref, task_ref, task_source_type, elements, path,
      whereFilter⟩

/-- The `InputSource.local()` classmethod. -/
def InputSource.local : InputSource :=
  ⟨.LOCAL, none, none, none, none, none, none⟩

/-- The `InputSource.default()` classmethod. -/
def InputSource.default : InputSource :=
  ⟨.DEFAULT, none, none, none, none, none, none⟩

/-- The `InputSource.import_()` classmethod. -/
def InputSource.import_ (import_ref : Ref) : InputSource :=
  ⟨.IMPORT, some import_ref, none, none, none, none, none⟩

/-- The `InputSource.task()` classmethod: a falsy (`None`) task-source type
defaults to `OUTPUT`. -/
def InputSource.task (task_ref : Ref) (task_source_type : Option TaskSourceType)
    (elements : Option (List Int)) : InputSource :=
  ⟨.TASK, none, some task_ref, some (task_source_type.getD .OUTPUT), elements,
    none, none⟩

/-- `InputSource.to_string`: the variant name, then for `TASK` the task ref,
the task-source-type name and — only when the elements filter is truthy (a
non-empty list) — a bracketed comma-list of element indices, and for `IMPORT`
the import ref, all dot-joined.  (On a hand-built `TASK` source whose
task-source type is `None`, Python would raise `AttributeError`; validated
sources always carry one and the unreachable branch prints `None`.) -/
def InputSource.to_string (s : InputSource) : String :=
  match s.source_type with
  | .TASK =>
    let base := ["task", refToStr s.task_ref,
      (match s.task_source_type with
       | some t => t.pyName
       | none => "None")]
    let out := base ++
      (match s.elements with
       | some (e :: es) =>
         ["[" ++ joinWith "," ((e :: es).map intToStrPy) ++ "]"]
       | _ => [])
    joinWith "." out
  | .IMPORT => joinWith "." ["import", refToStr s.import_ref]
  | .LOCAL => "local"
  | .DEFAULT => "default"

/-- The result dict of `InputSource._parse_from_string`. -/
structure ParsedSource where
  source_type : InputSourceType
  import_ref : Option Ref
  task_ref : Option Ref
  task_source_type : Option TaskSourceType
deriving DecidableEq, Repr

/-- The body of `InputSource._parse_from_string` after lower-casing and
dot-splitting: validate the variant token, apply the arity checks (`local` /
`default` take no extra token, `import` at most one, `task` at most two), then
read the references — `parts[1]` raises `IndexError` when a bare `task` or
`import` string has no reference token — and default a missing task-source
type to `OUTPUT`. -/
def parseParts (str_defn : String) (parts : List String) :
    Except PyErr ParsedSource :=
  match validate_source_type_str (parts.headD "") with
  | .error e => .error e
  | .ok source_type =>
    if ((source_type = .LOCAL ∨ source_type = .DEFAULT) ∧ parts.length > 1)
        ∨ (source_type = .TASK ∧ parts.length > 3)
        ∨ (source_type = .IMPORT ∧ parts.length > 2) then
      .error (.valueErrorNotUnderstood str_defn)
    else
      match source_type with
      | .TASK =>
        match parts.get? 1 with
        | none => .error .indexError
        | some t1 =>
          let task_ref := pyIntOrStr t1
          let tst := match parts.get? 2 with
            | none => Except.ok TaskSourceType.OUTPUT
            | some t2 => validate_task_source_type_str t2
          match tst with
          | .error e => .error e
          | .ok t => .ok ⟨.TASK, none, some task_ref, some t⟩
      | .IMPORT =>
        match parts.get? 1 with
        | none => .error .indexError
        | some t1 => .ok ⟨.IMPORT, some (pyIntOrStr t1), none, none⟩
      | ty => .ok ⟨ty, none, none, none⟩

/-- `InputSource._parse_from_string`: lower-case, dot-split, then parse. -/
def InputSource.parse_from_string (str_defn : String) :
    Except PyErr ParsedSource :=
  parseParts str_defn (pySplitDot (pyLower str_defn))

/-- `InputSource.from_string`: parse, then construct through `__init__` (the
elements filter, path and where filter are never produced by parsing). -/
def InputSource.from_string (str_defn : String) : Except PyErr InputSource :=
  match InputSource.parse_from_string str_defn with
  | .error e => .error e
  | .ok p =>
    InputSource.make p.source_type p.import_ref p.task_ref p.task_source_type
      none none none

/-- The `ParameterPropagationMode` enum. -/
inductive ParameterPropagationMode where
  | IMPLICIT : ParameterPropagationMode
  | EXPLICIT : ParameterPropagationMode
  | NEVER : ParameterPropagationMode
deriving DecidableEq, Repr

/-- Modelled from the spec: the input-source resolver and `Workflow.add_task`
live in task/workflow modules that are not under `src` (only the unit tests
are); per spec section 4.5 each schema input is summarised by its parameter
type and whether a local value or a default is available. -/
structure SchemaInputSpec where
  typ : String
  hasLocalValue : Bool
  hasDefault : Bool
deriving DecidableEq, Repr

/-- Modelled from the spec: an already-added task, summarised by its declared
outputs with their propagation modes. -/
structure UpstreamTask where
  outputs : List (String × ParameterPropagationMode)
deriving DecidableEq, Repr

/-- Modelled from the spec: a task provides a parameter type when it declares
an output of that type whose propagation mode is not `NEVER`. -/
def UpstreamTask.providesOutput (t : UpstreamTask) (typ : String) : Bool :=
  t.outputs.any (fun o => o.1 = typ ∧ o.2 ≠ ParameterPropagationMode.NEVER)

/-- Modelled from the spec: the unresolvable schema inputs, in schema input
declaration order — those with no local value, no default and no matching
upstream output. -/
def missingInputsOf (schemaInputs : List SchemaInputSpec)
    (upstream : List UpstreamTask) : List String :=
  (schemaInputs.filter (fun inp =>
    ¬inp.hasLocalValue ∧ ¬inp.hasDefault
      ∧ ¬upstream.any (fun t => t.providesOutput inp.typ))).map (fun i => i.typ)

/-- Modelled from the spec: `Workflow.add_task` fails with `MissingInputs`
carrying the ordered missing list when it is non-empty. -/
def add_task (schemaInputs : List SchemaInputSpec)
    (upstream : List UpstreamTask) : Except PyErr Unit :=
  let missing := missingInputsOf schemaInputs upstream
  if missing.isEmpty then .ok () else .error (.missingInputs missing)

/-- Whole-workflow metadata blob, an equality-comparable key/value structure. -/
def Metadata : Type := List (String × String)

instance : DecidableEq Metadata := by
  unfold Metadata
  infer_instance

/-- Modelled from the spec: the events that can happen inside a batch-update
scope — an in-scope structural mutation (e.g. `add_task`), or another writer
changing the store's on-disk metadata. -/
inductive BatchEvent where
  | mutateTasks : Metadata → BatchEvent
  | externalWrite : Metadata → BatchEvent

/-- Modelled from the spec: the state of an open batch-update scope — the
metadata snapshot taken on entry, the store's current on-disk metadata, the
in-memory workflow metadata awaiting commit, and the modified flag. -/
structure BatchScope where
  entrySnapshot : Metadata
  disk : Metadata
  inMemory : Metadata
  modified : Bool

/-- Modelled from the spec: entering a batch-update scope snapshots the
current on-disk metadata and marks the workflow not modified. -/
def batchEnter (disk : Metadata) : BatchScope :=
  ⟨disk, disk, disk, false⟩

/-- Modelled from the spec: an in-scope mutation updates only the in-memory
metadata and sets the modified flag; an external write changes only the
on-disk metadata. -/
def batchStep (sc : BatchScope) : BatchEvent → BatchScope
  | .mutateTasks m => { sc with inMemory := m, modified := true }
  | .externalWrite m => { sc with disk := m }

/-- Outcome of exiting a batch-update scope: the exception (if any), the
store's final on-disk metadata, whether the store was written, and the
modified flag reported at exit. -/
structure BatchResult where
  result : Except PyErr Unit
  finalDisk : Metadata
  wroteStore : Bool
  modifiedAtExit : Bool

/-- Modelled from the spec: exiting without exception — if modified, re-read
the on-disk metadata and compare with the entry snapshot; on drift abort with
`WorkflowBatchUpdateFailedError`, discarding the mutation and leaving the
externally-written metadata in place; on no drift commit the in-memory
metadata; if not modified, write nothing. -/
def batchExit (sc : BatchScope) : BatchResult :=
  if sc.modified then
    if sc.disk ≠ sc.entrySnapshot then
      ⟨.error .workflowBatchUpdateFailed, sc.disk, false, true⟩
    else ⟨.ok (), sc.inMemory, true, true⟩
  else ⟨.ok (), sc.disk, false, false⟩

/-- Modelled from the spec: a whole batch-update scope — enter, process the
events in order, exit. -/
def runBatch (disk : Metadata) (evs : List BatchEvent) : BatchResult :=
  batchExit (evs.foldl batchStep (batchEnter disk))

/-- Compatibility of a pending payload value with a parameter's value-class
binding: a bound value class reconstructs with `cls(**val)`, which requires
the stored value to be a dict (mapping); an unbound parameter accepts any
value. -/
def compatibleB (vc : Option ValueClass) (v : Val) : Bool :=
  match vc, v with
  | some _, .atom _ => false
  | _, _ => true

/-! Helper lemmas. -/

theorem forall_mem_dropWhile_iff {α : Type} (p : α → Bool) (l : List α) :
    (∀ x ∈ l.dropWhile p, p x = true) ↔ (∀ x ∈ l, p x = true) := by
  constructor
  · intro h x hx
    rw [← List.takeWhile_append_dropWhile p l] at hx
    rcases List.mem_append.mp hx with h1 | h2
    · exact List.mem_takeWhile_imp h1
    · exact h x h2
  · intro h x hx
    exact h x (List.Sublist.subset (List.dropWhile_sublist p) hx)

theorem stripDots_eq_empty_iff (s : String) :
    stripDots s = "" ↔ s.data.all (fun c => c = '.') = true := by
  have hmk : stripDots s = ""
      ↔ (((s.data.dropWhile (fun c => c = '.')).reverse.dropWhile
          (fun c => c = '.')).reverse = []) := by
    simp [stripDots, String.ext_iff]
  rw [hmk, List.reverse_eq_nil_iff, List.dropWhile_eq_nil_iff]
  simp only [List.mem_reverse]
  rw [forall_mem_dropWhile_iff, List.all_eq_true]

theorem foldl_override_eq_reverse_find {α : Type} (p : α → Bool) :
    ∀ (l : List α) (a : Option α),
      l.foldl (fun acc i => if p i then some i else acc) a
        = match l.reverse.find? p with
          | some x => some x
          | none => a := by
  intro l
  induction l with
  | nil => intro a; rfl
  | cons i t ih =>
    intro a
    show t.foldl _ (if p i then some i else a) = _
    rw [ih]
    have : (i :: t).reverse = t.reverse ++ [i] := by simp
    rw [this, List.find?_append]
    cases hf : t.reverse.find? p with
    | some x => simp [Option.or]
    | none =>
      simp only [Option.or]
      cases hp : p i <;> simp [List.find?, hp]

theorem writeSeq_spec (src : Source) :
    ∀ (vals : List Val) (st : Store) (idx : Nat),
      writeSeq st src idx vals
        = (List.range' st.params.length vals.length,
           ⟨st.params ++ (List.enumFrom idx vals).map
             (fun p => (p.2, { src with sequence_idx := some p.1 }))⟩) := by
  intro vals
  induction vals with
  | nil => intro st idx; simp [writeSeq]
  | cons v vs ih =>
    intro st idx
    show (st.params.length :: (writeSeq _ src (idx + 1) vs).1, _) = _
    rw [ih]
    simp [List.range'_succ, List.enumFrom]

theorem readValues_range' (param : Parameter) (st : Store) :
    ∀ (vals : List Val) (base : Nat),
      (∀ v ∈ vals, compatibleB param.value_class v = true) →
      (∀ i v, vals.get? i = some v →
        st.get_parameter_data (base + i) = .ok v) →
      readValues (some param) st (List.range' base vals.length) = .ok vals := by
  intro vals
  induction vals with
  | nil => intro base _ _; rfl
  | cons v vs ih =>
    intro base hcompat hget
    rw [List.length_cons, List.range'_succ]
    have h0 : st.get_parameter_data base = .ok v := by
      have := hget 0 v rfl
      simpa using this
    have hv : readValue (some param) st base = .ok v := by
      unfold readValue
      rw [h0]
      have hc := hcompat v (List.mem_cons_self v vs)
      cases hvc : param.value_class with
      | none => simp [hvc]
      | some c =>
        cases v with
        | dict fs => simp [hvc]
        | atom a => simp [compatibleB, hvc] at hc
    have hc' : ∀ w ∈ vs, compatibleB param.value_class w = true :=
      fun w hw => hcompat w (List.mem_cons_of_mem v hw)
    have hg' : ∀ i w, vs.get? i = some w →
        st.get_parameter_data (base + 1 + i) = .ok w := by
      intro i w hi
      have h2 := hget (i + 1) w hi
      rwa [show base + (i + 1) = base + 1 + i by omega] at h2
    have hh := ih (base + 1) hc' hg'
    simp only [readValues, hv, hh]

theorem readValue_ok (param : Parameter) (st : Store) (ref : Nat) (v : Val)
    (hget : st.get_parameter_data ref = .ok v)
    (hc : compatibleB param.value_class v = true) :
    readValue (some param) st ref = .ok v := by
  unfold readValue
  rw [hget]
  cases hvc : param.value_class with
  | none => simp [hvc]
  | some c =>
    cases v with
    | dict fs => simp [hvc]
    | atom a => simp [compatibleB, hvc] at hc

theorem get_parameter_data_append (pre sfx : List (Val × Source)) (i : Nat)
    (e : Val × Source) (h : sfx.get? i = some e) :
    (Store.mk (pre ++ sfx)).get_parameter_data (pre.length + i) = .ok e.1 := by
  unfold Store.get_parameter_data
  rw [List.get?_append_right (Nat.le_add_right _ _)]
  rw [Nat.add_sub_cancel_left, h]

/-- C10: the `InputValue` constructor strips leading and trailing dots from
the given sub-path and normalizes an empty or dots-only path (including the
empty string) to `None`, so that `normalised_path` is exactly
`inputs.<parameter typ>` with no trailing separator when no effective
sub-path is given, and `inputs.<parameter typ>.<stripped path>` otherwise. -/
theorem C10_claim : ∀ (p : Parameter) (v : Val) (s : String),
    (InputValue.make p v none).path = none
    ∧ ((InputValue.make p v (some s)).path = none
        ↔ s.data.all (fun c => c = '.') = true)
    ∧ (InputValue.make p v none).normalised_path = "inputs." ++ p.typ
    ∧ (s.data.all (fun c => c = '.') = false →
        (InputValue.make p v (some s)).path = some (stripDots s)
        ∧ (InputValue.make p v (some s)).normalised_path
            = "inputs." ++ p.typ ++ "." ++ stripDots s) := by
  intro p v s
  refine ⟨rfl, ?_, ?_, ?_⟩
  · simp only [InputValue.make]
    by_cases he : s = ""
    · subst he
      simp
    · rw [if_neg he]
      by_cases hd : stripDots s = ""
      · rw [if_pos hd]
        simp [(stripDots_eq_empty_iff s).mp hd]
      · rw [if_neg hd]
        simp only [reduceCtorEq, false_iff]
        intro hall
        exact hd ((stripDots_eq_empty_iff s).mpr hall)
  · simp [InputValue.make, InputValue.normalised_path,
      InputValue.normalised_inputs_path]
  · intro hall
    have he : s ≠ "" := by
      intro h
      subst h
      simp at hall
    have hd : stripDots s ≠ "" := by
      intro h
      rw [(stripDots_eq_empty_iff s).mp h] at hall
      cases hall
    constructor
    · simp [InputValue.make, if_neg he, if_neg hd]
    · simp [InputValue.make, InputValue.normalised_path,
        InputValue.normalised_inputs_path, if_neg he, if_neg hd,
        String.append_assoc]

/-- C10 witness: concrete instantiation of the hypothesis-bearing part. -/
theorem C10_witness :
    ((String.data ".p.q.").all (fun c => c = '.') = false)
    ∧ ((InputValue.make ⟨"p1", false, none⟩ (.atom (.int 101))
          (some ".p.q.")).path = some (stripDots ".p.q.")
        ∧ (InputValue.make ⟨"p1", false, none⟩ (.atom (.int 101))
            (some ".p.q.")).normalised_path
          = "inputs." ++ "p1" ++ "." ++ stripDots ".p.q.") :=
  ⟨by decide,
   (C10_claim ⟨"p1", false, none⟩ (.atom (.int 101)) ".p.q.").2.2.2 (by decide)⟩

/-- C7: a `ValueSequence` parameter path is lower-cased and dot-split; a first
segment other than `inputs` or `resources` fails with
`MalformedParameterPathError`, a `resources` path whose second segment does
not parse as an action-scope token fails with `MalformedParameterPathError`,
and construction never succeeds with such a path (the successful case records
the lower-cased path). -/
theorem validate_parameter_path_ok (scopeOk : String → Bool) (path r : String)
    (h : validate_parameter_path scopeOk path = .ok r) : r = pyLower path := by
  unfold validate_parameter_path at h
  split at h
  · cases h; rfl
  · split at h
    · split at h
      · split at h
        · cases h; rfl
        · cases h
      · cases h; rfl
    · cases h
  · cases h
  · cases h

/-- C7: a `ValueSequence` parameter path is lower-cased and dot-split; a first
segment other than `inputs` or `resources` fails with
`MalformedParameterPathError`, a `resources` path whose second segment does
not parse as an action-scope token fails with `MalformedParameterPathError`,
and construction never succeeds with such a path (the successful case records
the lower-cased path). -/
theorem C7_claim : ∀ (scopeOk : String → Bool) (path : String) (n : Int)
    (vals : List Val) (u : Bool),
    (∀ t ps, pySplitDot (pyLower path) = t :: ps →
      t ∉ (["inputs", "resources"] : List String) →
      ValueSequence.make scopeOk path n vals u
        = .error (.malformedParameterPathNotInputsResources (pyLower path)))
    ∧ (∀ scope rest, pySplitDot (pyLower path) = "resources" :: scope :: rest →
        scopeOk scope = false →
        ValueSequence.make scopeOk path n vals u
          = .error (.malformedParameterPathBadScope (pyLower path)))
    ∧ (∀ vs, ValueSequence.make scopeOk path n vals u = .ok vs →
        vs.path = pyLower path) := by
  intro scopeOk path n vals u
  refine ⟨?_, ?_, ?_⟩
  · intro t ps hsplit hns
    have h1 : t ≠ "inputs" := by
      intro h
      exact hns (by rw [h]; exact List.mem_cons_self _ _)
    have h2 : t ≠ "resources" := by
      intro h
      refine hns (by rw [h]; simp)
    simp [ValueSequence.make, validate_parameter_path, hsplit, h1, h2]
  · intro scope rest hsplit hscope
    simp [ValueSequence.make, validate_parameter_path, hsplit, hscope]
  · intro vs hok
    simp only [ValueSequence.make] at hok
    cases hv : validate_parameter_path scopeOk path with
    | error e => rw [hv] at hok; cases hok
    | ok r =>
      rw [hv] at hok
      cases hok
      exact validate_parameter_path_ok scopeOk path r hv

/-- C7 witness: concrete instantiations of all three parts. -/
theorem C7_witness :
    (ValueSequence.make (fun s => s == "any") "outputs.p1" 0 [] false
        = .error (.malformedParameterPathNotInputsResources "outputs.p1"))
    ∧ (ValueSequence.make (fun s => s == "any") "Resources.BAD.num_cores" 0 [] false
        = .error (.malformedParameterPathBadScope "resources.bad.num_cores"))
    ∧ ((ValueSequence.mk "inputs.p1" 0 false (some []) none none).path
        = pyLower "Inputs.P1") := by
  refine ⟨?_, ?_, ?_⟩
  · exact (C7_claim (fun s => s == "any") "outputs.p1" 0 [] false).1
      "outputs" ["p1"] (by decide) (by decide)
  · exact (C7_claim (fun s => s == "any") "Resources.BAD.num_cores" 0 [] false).2.1
      "bad" ["num_cores"] (by decide) (by decide)
  · exact (C7_claim (fun s => s == "any") "Inputs.P1" 0 [] false).2.2
      (ValueSequence.mk "inputs.p1" 0 false (some []) none none) (by decide)

/-- C8: a `resources.<scope>.<item>` path with an item outside the allowed
set `{scratch, num_cores}` is rejected at construction with
`UnknownResourceSpecItemError` naming the allowed set; and constructing a
`ResourceSpec` from json-like keyword keys with unknown keys fails once with
a single batched error naming every unrecognized key and the full allowed
set. -/
theorem C8_claim : ∀ (scopeOk : String → Bool) (path : String) (n : Int)
    (vals : List Val) (u : Bool) (scope item : String) (rest : List String)
    (vgi : Option Nat) (jl : List (String × Atom)),
    (pySplitDot (pyLower path) = "resources" :: scope :: item :: rest →
      scopeOk scope = true → item ∉ ALLOWED_PARAMETERS →
      ValueSequence.make scopeOk path n vals u
        = .error (.unknownResourceSpecItem [item] ALLOWED_PARAMETERS))
    ∧ ((∃ k ∈ jl.map Prod.fst, k ≠ "scope" ∧ k ∉ ALLOWED_PARAMETERS) →
        ∃ bad, ResourceSpec.json_like_constructor vgi jl
            = .error (.unknownResourceSpecItem bad ALLOWED_PARAMETERS)
          ∧ bad ≠ []
          ∧ (∀ k, k ∈ bad
              ↔ k ∈ jl.map Prod.fst ∧ k ≠ "scope" ∧ k ∉ ALLOWED_PARAMETERS)) := by
  intro scopeOk path n vals u scope item rest vgi jl
  constructor
  · intro hsplit hscope hitem
    simp [ValueSequence.make, validate_parameter_path, hsplit, hscope, hitem]
  · intro hbad
    obtain ⟨k, hk, hks, hka⟩ := hbad
    have hall : ((jl.map Prod.fst).all
        (fun k => k = "scope" ∨ k ∈ ALLOWED_PARAMETERS)) = false := by
      rw [Bool.eq_false_iff]
      intro hall
      rw [List.all_eq_true] at hall
      have := hall k hk
      simp at this
      rcases this with h | h
      · exact hks h
      · exact hka h
    refine ⟨((jl.map Prod.fst).filter
      (fun k => ¬(k = "scope" ∨ k ∈ ALLOWED_PARAMETERS))).dedup, ?_, ?_, ?_⟩
    · simp only [ResourceSpec.json_like_constructor, hall]
      simp
    · intro hnil
      have hmem : k ∈ ((jl.map Prod.fst).filter
          (fun k => ¬(k = "scope" ∨ k ∈ ALLOWED_PARAMETERS))).dedup := by
        rw [List.mem_dedup, List.mem_filter]
        refine ⟨hk, ?_⟩
        simp [hks, hka]
      rw [hnil] at hmem
      cases hmem
    · intro k2
      rw [List.mem_dedup, List.mem_filter]
      simp

/-- C8 witness: concrete instantiations of both parts (one valid and two
invalid resource keys produce one batched error naming both). -/
theorem C8_witness :
    (ValueSequence.make (fun s => s == "any") "resources.any.walltime" 0 [] false
      = .error (.unknownResourceSpecItem ["walltime"] ALLOWED_PARAMETERS))
    ∧ (∃ bad, ResourceSpec.json_like_constructor none
          [("num_cores", .int 2), ("wrong1", .int 0), ("wrong2", .int 1)]
          = .error (.unknownResourceSpecItem bad ALLOWED_PARAMETERS)
        ∧ bad ≠ []
        ∧ (∀ k, k ∈ bad
            ↔ k ∈ ["num_cores", "wrong1", "wrong2"] ∧ k ≠ "scope"
              ∧ k ∉ ALLOWED_PARAMETERS)) := by
  constructor
  · exact (C8_claim (fun s => s == "any") "resources.any.walltime" 0 [] false
      "any" "walltime" [] none []).1 (by decide) (by decide) (by decide)
  · exact (C8_claim (fun s => s == "any") "" 0 [] false "" "" [] none
      [("num_cores", .int 2), ("wrong1", .int 0), ("wrong2", .int 1)]).2
      ⟨"wrong1", by decide, by decide, by decide⟩

/-- C9 counterexample: when two registered value classes declare the same
type tag, `Parameter.__post_init__` binds the LAST matching class (the loop
assigns without breaking), not the first as claimed. -/
theorem C9_counterexample :
    Parameter.make [⟨"ClsA", some "p1"⟩, ⟨"ClsB", some "p1"⟩] "p1"
      = .ok ⟨"p1", false, some ⟨"ClsB", some "p1"⟩⟩
    ∧ ([⟨"ClsA", some "p1"⟩, ⟨"ClsB", some "p1"⟩] : List ValueClass).find?
        (fun i => i.typ == some "p1") = some ⟨"ClsA", some "p1"⟩
    ∧ (⟨"ClsB", some "p1"⟩ : ValueClass) ≠ ⟨"ClsA", some "p1"⟩ := by
  decide

/-- C9 (amended): `Parameter` construction rejects every `typ` that is not a
valid identifier with `InvalidIdentifier`; on construction it scans the
registered value classes and binds the LAST whose declared type tag equals
`typ` (the first match scanning the registry in reverse); when no class
matches, the value-class is left unset and construction still succeeds. -/
theorem C9_claim : ∀ (registry : List ValueClass) (typ : String),
    (isPyIdentifier typ = false →
      Parameter.make registry typ = .error (.invalidIdentifier typ))
    ∧ (isPyIdentifier typ = true →
      Parameter.make registry typ
        = .ok ⟨typ, false, registry.reverse.find? (fun i => i.typ == some typ)⟩) := by
  intro registry typ
  constructor
  · intro hbad
    simp [Parameter.make, check_valid_py_identifier, hbad]
  · intro hgood
    simp only [Parameter.make, check_valid_py_identifier, hgood, if_true]
    have hb := foldl_override_eq_reverse_find
      (fun i : ValueClass => i.typ == some typ) registry none
    rw [bindValueClass, hb]
    cases registry.reverse.find? (fun i : ValueClass => i.typ == some typ) <;> rfl

/-- C9 witness: concrete instantiations of both parts (a no-match registry
still constructs, with the value-class unset). -/
theorem C9_witness :
    (isPyIdentifier "2bad" = false
      ∧ Parameter.make [⟨"ClsA", some "p1"⟩] "2bad"
          = .error (.invalidIdentifier "2bad"))
    ∧ (isPyIdentifier "p9" = true
      ∧ Parameter.make [⟨"ClsA", some "p1"⟩] "p9"
          = .ok ⟨"p9", false,
              ([⟨"ClsA", some "p1"⟩] : List ValueClass).reverse.find?
                (fun i => i.typ == some "p9")⟩) :=
  ⟨⟨by decide, (C9_claim [⟨"ClsA", some "p1"⟩] "2bad").1 (by decide)⟩,
   ⟨by decide, (C9_claim [⟨"ClsA", some "p1"⟩] "p9").2 (by decide)⟩⟩

/-- C5: adding a task whose schema inputs have no local value, no default and
no matching upstream output fails with `MissingInputs` carrying exactly the
unresolvable parameter types in schema input declaration order; an input
resolvable from a preceding task's declared output does not appear, so a
schema with inputs `[p2, p3]` added after a task producing `p2` yields
`MissingInputs(["p3"])` exactly. -/
theorem C5_claim : ∀ (si : List SchemaInputSpec) (up : List UpstreamTask),
    (missingInputsOf si up ≠ [] →
      add_task si up = .error (.missingInputs (missingInputsOf si up)))
    ∧ (∀ k, k ∈ missingInputsOf si up
        ↔ ∃ inp ∈ si, inp.typ = k ∧ inp.hasLocalValue = false
            ∧ inp.hasDefault = false
            ∧ ∀ t ∈ up, t.providesOutput k = false)
    ∧ (missingInputsOf si up).Sublist (si.map (fun i => i.typ))
    ∧ add_task [⟨"p2", false, false⟩, ⟨"p3", false, false⟩]
        [⟨[("p2", .IMPLICIT)]⟩] = .error (.missingInputs ["p3"]) := by
  intro si up
  refine ⟨?_, ?_, ?_, by decide⟩
  · intro hne
    simp only [add_task]
    rw [if_neg (by simpa using hne)]
  · intro k
    simp only [missingInputsOf, List.mem_map, List.mem_filter]
    constructor
    · rintro ⟨inp, ⟨hmem, hcond⟩, htyp⟩
      simp only [Bool.not_eq_true', decide_eq_true_eq, Bool.decide_and,
        Bool.and_eq_true, decide_eq_false_iff_not, List.any_eq_true,
        not_exists, not_and] at hcond
      refine ⟨inp, hmem, htyp, ?_, ?_, ?_⟩
      · simpa using hcond.1
      · simpa using hcond.2.1
      · intro t ht
        rw [Bool.eq_false_iff]
        intro hprov
        rw [← htyp] at hprov
        exact hcond.2.2 t ht hprov
    · rintro ⟨inp, hmem, htyp, hl, hd, hup⟩
      refine ⟨inp, ⟨hmem, ?_⟩, htyp⟩
      have hany : up.any (fun t => t.providesOutput inp.typ) = false := by
        rw [Bool.eq_false_iff]
        intro h
        obtain ⟨t, ht, hp⟩ := List.any_eq_true.mp h
        rw [htyp] at hp
        rw [hup t ht] at hp
        cases hp
      simp [hl, hd, hany]
  · exact List.Sublist.map _ (List.filter_sublist si)

/-- C5 witness: concrete instantiation of the hypothesis-bearing part. -/
theorem C5_witness :
    (missingInputsOf [⟨"p1", false, false⟩] [] ≠ [])
    ∧ add_task [⟨"p1", false, false⟩] []
        = .error (.missingInputs (missingInputsOf [⟨"p1", false, false⟩] [])) :=
  ⟨by decide, (C5_claim [⟨"p1", false, false⟩] []).1 (by decide)⟩

/-- C6: if a workflow is mutated inside a batch-update scope and the on-disk
metadata is changed by another writer before the scope exits, exiting raises
`WorkflowBatchUpdateFailedError`, the attempted mutation is discarded (no
store write) and the persisted metadata remains the externally-written value;
a scope exited with no mutations performs no store write and reports not
modified. -/
theorem C6_claim : ∀ (d m ext : Metadata),
    (∀ sc : BatchScope, sc.modified = true → sc.disk ≠ sc.entrySnapshot →
      batchExit sc = ⟨.error .workflowBatchUpdateFailed, sc.disk, false, true⟩)
    ∧ (ext ≠ d →
        runBatch d [.mutateTasks m, .externalWrite ext]
          = ⟨.error .workflowBatchUpdateFailed, ext, false, true⟩)
    ∧ runBatch d [] = ⟨.ok (), d, false, false⟩ := by
  intro d m ext
  refine ⟨?_, ?_, rfl⟩
  · intro sc hmod hdiff
    simp [batchExit, hmod, hdiff]
  · intro hne
    simp [runBatch, batchEnter, batchStep, batchExit, hne]

/-- C6 witness: concrete instantiation mirroring the unit test (an external
writer adds a key while a task has been added in-scope). -/
theorem C6_witness :
    (([("k", "v"), ("new_key", "new_value")] : Metadata) ≠ [("k", "v")])
    ∧ runBatch [("k", "v")]
        [.mutateTasks [("k", "v"), ("t2", "added")],
         .externalWrite [("k", "v"), ("new_key", "new_value")]]
        = ⟨.error .workflowBatchUpdateFailed,
           [("k", "v"), ("new_key", "new_value")], false, true⟩ :=
  ⟨by decide,
   (C6_claim [("k", "v")] [("k", "v"), ("t2", "added")]
     [("k", "v"), ("new_key", "new_value")]).2.1 (by decide)⟩

/-- C1 counterexample: a pending `resources` `ValueSequence` (whose
`_parameter` is never assigned — the parent element set assigns it only for
`inputs` sequences) goes through `make_persistent` as claimed, but its
`values` accessor then raises `AttributeError` (the code reads
`self.parameter._value_class` unconditionally) instead of yielding the
pending payload; likewise a bound value class over a non-dict payload makes
the read raise `TypeError` (`cls(**val)` needs a mapping). -/
theorem C1_counterexample :
    (ValueSequence.make (fun s => s == "any") "resources.any.num_cores" 0
        [.atom (.int 4)] false
      = .ok ⟨"resources.any.num_cores", 0, false, some [.atom (.int 4)],
          none, none⟩)
    ∧ ((⟨"resources.any.num_cores", 0, false, some [.atom (.int 4)], none,
          none⟩ : ValueSequence).make_persistent ⟨[]⟩ ⟨"elem", none⟩
      = .ok (("resources.any.num_cores", [0], true),
          ⟨"resources.any.num_cores", 0, false, none, some [0], none⟩,
          ⟨[(.atom (.int 4), ⟨"elem", some 0⟩)]⟩))
    ∧ ((⟨"resources.any.num_cores", 0, false, none, some [0], none⟩ :
          ValueSequence).values ⟨[(.atom (.int 4), ⟨"elem", some 0⟩)]⟩
      = .error (.attributeError "NoneType object has no attribute _value_class"))
    ∧ ((⟨"inputs.p1", 0, false, none, some [0],
          some ⟨"p1", false, some ⟨"C1", some "p1"⟩⟩⟩ : ValueSequence).values
          ⟨[(.atom (.int 5), ⟨"elem", some 0⟩)]⟩
      = .error (.typeError "argument after ** must be a mapping")) := by
  decide

/-- C1 (amended): for every value holder in the `PENDING` state,
`make_persistent` writes each payload value to the store in payload order
(sequence holders tagging each write with the item's position), transitions
the holder to `PERSISTENT`, discards the in-memory payload and returns
`is_new = True`; and — provided the holder's parameter is bound when it is a
`ValueSequence` (as it is for `inputs` sequences) and the payload is
compatible with any bound value class — the `value`/`values` read accessor
afterwards yields the pending payload held before the call. -/
theorem C1_claim : ∀ (vs : ValueSequence) (iv : InputValue)
    (rs : ResourceSpec) (st : Store) (src : Source) (vals : List Val)
    (param : Parameter),
    (vs._values = some vals → vs._values_group_idx = none →
      vs._parameter = some param →
      (∀ v ∈ vals, compatibleB param.value_class v = true) →
      vs.make_persistent st src
        = .ok ((vs.path, List.range' st.params.length vals.length, true),
            { vs with
              _values := none
              _values_group_idx :=
                some (List.range' st.params.length vals.length) },
            ⟨st.params ++ (List.enumFrom 0 vals).map
              (fun p => (p.2, { src with sequence_idx := some p.1 }))⟩)
      ∧ ({ vs with
            _values := none
            _values_group_idx :=
              some (List.range' st.params.length vals.length) } :
          ValueSequence).values
          ⟨st.params ++ (List.enumFrom 0 vals).map
            (fun p => (p.2, { src with sequence_idx := some p.1 }))⟩
        = .ok (some vals))
    ∧ (iv._value_group_idx = none →
        compatibleB iv.parameter.value_class iv._value = true →
        iv.make_persistent st src
          = .ok ((iv.normalised_path, [st.params.length], true),
              { iv with
                _value_group_idx := some st.params.length
                _value := .atom .pynone },
              ⟨st.params ++ [(iv._value, src)]⟩)
        ∧ ({ iv with
              _value_group_idx := some st.params.length
              _value := .atom .pynone } : InputValue).value
            ⟨st.params ++ [(iv._value, src)]⟩ = .ok iv._value)
    ∧ (rs._value_group_idx = none →
        rs.make_persistent st src
          = .ok ((rs.normalised_path, [st.params.length], true),
              { rs with
                _value_group_idx := some st.params.length
                _num_cores := .pynone
                _scratch := .pynone },
              ⟨st.params ++ [(.dict rs.members, src)]⟩)
        ∧ ({ rs with
              _value_group_idx := some st.params.length
              _num_cores := .pynone
              _scratch := .pynone } :
            ResourceSpec).get_value ⟨st.params ++ [(.dict rs.members, src)]⟩
            = .ok (.dict rs.members)
        ∧ ({ rs with
              _value_group_idx := some st.params.length
              _num_cores := .pynone
              _scratch := .pynone } :
            ResourceSpec).scratch ⟨st.params ++ [(.dict rs.members, src)]⟩
            = .ok rs._scratch
        ∧ ({ rs with
              _value_group_idx := some st.params.length
              _num_cores := .pynone
              _scratch := .pynone } :
            ResourceSpec).num_cores ⟨st.params ++ [(.dict rs.members, src)]⟩
            = .ok rs._num_cores) := by
  intro vs iv rs st src vals param
  refine ⟨?_, ?_, ?_⟩
  · intro h1 h2 h3 hcompat
    have hw := writeSeq_spec src vals st 0
    constructor
    · simp only [ValueSequence.make_persistent, h2, h1, hw]
    · simp only [ValueSequence.values, h3]
      rw [readValues_range' param _ vals st.params.length hcompat]
      intro i v hi
      have hsfx : ((List.enumFrom 0 vals).map
          (fun p => (p.2, { src with sequence_idx := some p.1 }))).get? i
          = some (v, { src with sequence_idx := some i }) := by
        rw [List.get?_map, List.enumFrom_get?, hi]
        simp
      have := get_parameter_data_append st.params _ i _ hsfx
      simpa using this
  · intro h1 hcomp
    constructor
    · simp only [InputValue.make_persistent, h1, Store.add_parameter_data]
    · simp only [InputValue.value]
      exact readValue_ok iv.parameter _ _ _
        (get_parameter_data_append st.params [(iv._value, src)] 0 _ rfl) hcomp
  · intro h1
    have hget : (Store.mk (st.params ++ [(.dict rs.members, src)])).get_parameter_data
        st.params.length = .ok (.dict rs.members) :=
      get_parameter_data_append st.params [(.dict rs.members, src)] 0 _ rfl
    refine ⟨?_, ?_, ?_, ?_⟩
    · simp only [ResourceSpec.make_persistent, h1, Store.add_parameter_data]
    · simp only [ResourceSpec.get_value]
      simpa using hget
    · simp only [ResourceSpec.scratch, ResourceSpec.get_value_name,
        ResourceSpec.get_value]
      rw [hget]
      simp [ResourceSpec.members, List.lookup]
    · simp only [ResourceSpec.num_cores, ResourceSpec.get_value_name,
        ResourceSpec.get_value]
      rw [hget]
      simp [ResourceSpec.members, List.lookup]

/-- C1 witness: concrete pending holders of all three kinds round-trip
through `make_persistent` and their read accessors. -/
theorem C1_witness :
    (compatibleB (some ⟨"C1", some "p1"⟩) (.dict [("a", .int 1)]) = true)
    ∧ ((⟨"inputs.p1", 0, false, some [.dict [("a", .int 1)]], none,
          some ⟨"p1", false, some ⟨"C1", some "p1"⟩⟩⟩ :
        ValueSequence).make_persistent ⟨[]⟩ ⟨"elem", none⟩
      = .ok (("inputs.p1", [0], true),
          ⟨"inputs.p1", 0, false, none, some [0],
            some ⟨"p1", false, some ⟨"C1", some "p1"⟩⟩⟩,
          ⟨[(.dict [("a", .int 1)], ⟨"elem", some 0⟩)]⟩))
    ∧ ((⟨"inputs.p1", 0, false, none, some [0],
          some ⟨"p1", false, some ⟨"C1", some "p1"⟩⟩⟩ :
        ValueSequence).values ⟨[(.dict [("a", .int 1)], ⟨"elem", some 0⟩)]⟩
      = .ok (some [.dict [("a", .int 1)]]))
    ∧ ((⟨⟨"p1", false, none⟩, none, .atom (.int 101), none⟩ :
        InputValue).make_persistent ⟨[]⟩ ⟨"elem", none⟩
      = .ok (("inputs.p1", [0], true),
          ⟨⟨"p1", false, none⟩, none, .atom .pynone, some 0⟩,
          ⟨[(.atom (.int 101), ⟨"elem", none⟩)]⟩))
    ∧ ((⟨⟨"p1", false, none⟩, none, .atom .pynone, some 0⟩ :
        InputValue).value ⟨[(.atom (.int 101), ⟨"elem", none⟩)]⟩
      = .ok (.atom (.int 101)))
    ∧ ((⟨"any", .str "scr", .int 8, none⟩ :
        ResourceSpec).make_persistent ⟨[]⟩ ⟨"elem", none⟩
      = .ok (("resources.any", [0], true),
          ⟨"any", .pynone, .pynone, some 0⟩,
          ⟨[(.dict [("scratch", .str "scr"), ("num_cores", .int 8)],
             ⟨"elem", none⟩)]⟩))
    ∧ ((⟨"any", .pynone, .pynone, some 0⟩ : ResourceSpec).scratch
        ⟨[(.dict [("scratch", .str "scr"), ("num_cores", .int 8)],
           ⟨"elem", none⟩)]⟩ = .ok (.str "scr"))
    ∧ ((⟨"any", .pynone, .pynone, some 0⟩ : ResourceSpec).num_cores
        ⟨[(.dict [("scratch", .str "scr"), ("num_cores", .int 8)],
           ⟨"elem", none⟩)]⟩ = .ok (.int 8)) := by
  have h := C1_claim
    ⟨"inputs.p1", 0, false, some [.dict [("a", .int 1)]], none,
      some ⟨"p1", false, some ⟨"C1", some "p1"⟩⟩⟩
    ⟨⟨"p1", false, none⟩, none, .atom (.int 101), none⟩
    ⟨"any", .str "scr", .int 8, none⟩
    ⟨[]⟩ ⟨"elem", none⟩ [.dict [("a", .int 1)]]
    ⟨"p1", false, some ⟨"C1", some "p1"⟩⟩
  have h1 := h.1 rfl rfl rfl (by decide)
  have h2 := h.2.1 rfl (by decide)
  have h3 := h.2.2 rfl
  exact ⟨by decide, h1.1, h1.2, h2.1, h2.2, h3.1, h3.2.2.1, h3.2.2.2⟩

theorem check_range'_all (params sfx : List (Val × Source)) (n : Nat)
    (hn : sfx.length = n) :
    ((Store.mk (params ++ sfx)).check_parameters_exist
      (List.range' params.length n)).all id = true := by
  rw [List.all_eq_true]
  intro b hb
  simp only [Store.check_parameters_exist, List.mem_map] at hb
  obtain ⟨m, hm, hb⟩ := hb
  rw [List.mem_range'] at hm
  obtain ⟨i, hi, rfl⟩ := hm
  subst hb
  simp only [id, Store.param_exists, List.length_append, hn,
    decide_eq_true_eq]
  omega

/-- C2 counterexample: a persistent holder whose reference is missing from
the store fails with the builtin `RuntimeError`, not with the
`ReferentialIntegrityError` the claim names (no such exception class is used
by the code; the raise site is `raise RuntimeError(...)`). -/
theorem C2_counterexample :
    ((⟨"inputs.p1", 0, false, none, some [5], some ⟨"p1", false, none⟩⟩ :
        ValueSequence).make_persistent ⟨[]⟩ ⟨"elem", none⟩
      = .error (.runtimeError "ValueSequence" [5]))
    ∧ (PyErr.runtimeError "ValueSequence" [5]).isReferentialIntegrity = false := by
  decide

/-- C2 (amended): for every value holder already in the `PERSISTENT` state,
`make_persistent` first verifies that every stored reference still exists in
the store; if any reference is missing it fails with the builtin
`RuntimeError` (the spec's name `ReferentialIntegrityError` corresponds to no
exception class in the code), and otherwise returns the existing references
unchanged with `is_new = False`, so calling `make_persistent` twice on the
same holder returns identical references the second time. -/
theorem C2_claim : ∀ (vs : ValueSequence) (iv : InputValue)
    (rs : ResourceSpec) (st st2 : Store) (src src2 : Source)
    (refs : List Nat) (r : Nat) (out : String × List Nat × Bool)
    (vs1 : ValueSequence) (iv1 : InputValue) (rs1 : ResourceSpec),
    (vs._values_group_idx = some refs →
      (st.check_parameters_exist refs).all id = true →
      vs.make_persistent st src = .ok ((vs.path, refs, false), vs, st))
    ∧ (vs._values_group_idx = some refs →
        (st.check_parameters_exist refs).all id = false →
        vs.make_persistent st src = .error (.runtimeError "ValueSequence" refs))
    ∧ (vs.make_persistent st src = .ok (out, vs1, st2) →
        vs1.make_persistent st2 src2 = .ok ((out.1, out.2.1, false), vs1, st2))
    ∧ (iv._value_group_idx = some r → st.param_exists r = true →
        iv.make_persistent st src
          = .ok ((iv.normalised_path, [r], false), iv, st))
    ∧ (iv._value_group_idx = some r → st.param_exists r = false →
        iv.make_persistent st src = .error (.runtimeError "InputValue" [r]))
    ∧ (iv.make_persistent st src = .ok (out, iv1, st2) →
        iv1.make_persistent st2 src2 = .ok ((out.1, out.2.1, false), iv1, st2))
    ∧ (rs._value_group_idx = some r → st.param_exists r = true →
        rs.make_persistent st src
          = .ok ((rs.normalised_path, [r], false), rs, st))
    ∧ (rs._value_group_idx = some r → st.param_exists r = false →
        rs.make_persistent st src = .error (.runtimeError "ResourceSpec" [r]))
    ∧ (rs.make_persistent st src = .ok (out, rs1, st2) →
        rs1.make_persistent st2 src2 = .ok ((out.1, out.2.1, false), rs1, st2)) := by
  intro vs iv rs st st2 src src2 refs r out vs1 iv1 rs1
  refine ⟨?_, ?_, ?_, ?_, ?_, ?_, ?_, ?_, ?_⟩
  · intro hg hall
    simp [ValueSequence.make_persistent, hg, hall]
  · intro hg hall
    simp [ValueSequence.make_persistent, hg, hall]
  · intro hok
    cases hg : vs._values_group_idx with
    | some refs2 =>
      simp only [ValueSequence.make_persistent, hg] at hok
      by_cases hall : (st.check_parameters_exist refs2).all id = true
      · rw [if_pos hall] at hok
        cases hok
        simp [ValueSequence.make_persistent, hg, hall]
      · rw [if_neg hall] at hok
        exact Except.noConfusion hok
    | none =>
      cases hv : vs._values with
      | none =>
        simp only [ValueSequence.make_persistent, hg, hv] at hok
        exact Except.noConfusion hok
      | some vals =>
        simp only [ValueSequence.make_persistent, hg, hv,
          writeSeq_spec src vals st 0] at hok
        cases hok
        simp only [ValueSequence.make_persistent]
        rw [check_range'_all st.params _ vals.length (by simp)]
        simp
  · intro hg hex
    simp [InputValue.make_persistent, hg, hex]
  · intro hg hex
    simp [InputValue.make_persistent, hg, hex]
  · intro hok
    cases hg : iv._value_group_idx with
    | some r2 =>
      simp only [InputValue.make_persistent, hg] at hok
      by_cases hex : st.param_exists r2 = true
      · rw [if_pos hex] at hok
        cases hok
        simp [InputValue.make_persistent, hg, hex]
      · rw [if_neg (by simpa using hex)] at hok
        exact Except.noConfusion hok
    | none =>
      simp only [InputValue.make_persistent, hg, Store.add_parameter_data] at hok
      cases hok
      simp only [InputValue.make_persistent]
      have hex : (Store.mk (st.params ++ [(iv._value, src)])).param_exists
          st.params.length = true := by
        simp [Store.param_exists]
      rw [hex]
      simp [InputValue.normalised_path, InputValue.normalised_inputs_path]
  · intro hg hex
    simp [ResourceSpec.make_persistent, hg, hex]
  · intro hg hex
    simp [ResourceSpec.make_persistent, hg, hex]
  · intro hok
    cases hg : rs._value_group_idx with
    | some r2 =>
      simp only [ResourceSpec.make_persistent, hg] at hok
      by_cases hex : st.param_exists r2 = true
      · rw [if_pos hex] at hok
        cases hok
        simp [ResourceSpec.make_persistent, hg, hex]
      · rw [if_neg (by simpa using hex)] at hok
        exact Except.noConfusion hok
    | none =>
      simp only [ResourceSpec.make_persistent, hg, Store.add_parameter_data] at hok
      cases hok
      simp only [ResourceSpec.make_persistent]
      have hex : (Store.mk (st.params ++ [(.dict rs.members, src)])).param_exists
          st.params.length = true := by
        simp [Store.param_exists]
      rw [hex]
      simp [ResourceSpec.normalised_path]

/-- C2 witness: concrete persistent holders of all three kinds — the
existence check passes and returns the refs unchanged with `is_new = False`,
a missing reference raises `RuntimeError`, and a second `make_persistent`
after the pending-to-persistent transition returns identical references. -/
theorem C2_witness :
    ((⟨"inputs.p1", 0, false, none, some [0], some ⟨"p1", false, none⟩⟩ :
        ValueSequence).make_persistent
        ⟨[(.atom (.int 101), ⟨"elem", some 0⟩)]⟩ ⟨"x", none⟩
      = .ok (("inputs.p1", [0], false),
          ⟨"inputs.p1", 0, false, none, some [0], some ⟨"p1", false, none⟩⟩,
          ⟨[(.atom (.int 101), ⟨"elem", some 0⟩)]⟩))
    ∧ ((⟨"inputs.p1", 0, false, none, some [5], some ⟨"p1", false, none⟩⟩ :
        ValueSequence).make_persistent ⟨[]⟩ ⟨"x", none⟩
      = .error (.runtimeError "ValueSequence" [5]))
    ∧ ((⟨"inputs.p1", 0, false, none, some [0], some ⟨"p1", false, none⟩⟩ :
        ValueSequence).make_persistent
        ⟨[(.atom (.int 101), ⟨"elem", some 0⟩)]⟩ ⟨"y", none⟩
      = .ok (("inputs.p1", [0], false),
          ⟨"inputs.p1", 0, false, none, some [0], some ⟨"p1", false, none⟩⟩,
          ⟨[(.atom (.int 101), ⟨"elem", some 0⟩)]⟩))
    ∧ ((⟨⟨"p1", false, none⟩, none, .atom .pynone, some 0⟩ :
        InputValue).make_persistent
        ⟨[(.atom (.int 101), ⟨"elem", none⟩)]⟩ ⟨"x", none⟩
      = .ok (("inputs.p1", [0], false),
          ⟨⟨"p1", false, none⟩, none, .atom .pynone, some 0⟩,
          ⟨[(.atom (.int 101), ⟨"elem", none⟩)]⟩))
    ∧ ((⟨⟨"p1", false, none⟩, none, .atom .pynone, some 3⟩ :
        InputValue).make_persistent ⟨[]⟩ ⟨"x", none⟩
      = .error (.runtimeError "InputValue" [3]))
    ∧ ((⟨⟨"p1", false, none⟩, none, .atom .pynone, some 0⟩ :
        InputValue).make_persistent
        ⟨[(.atom (.int 101), ⟨"elem", none⟩)]⟩ ⟨"y", none⟩
      = .ok (("inputs.p1", [0], false),
          ⟨⟨"p1", false, none⟩, none, .atom .pynone, some 0⟩,
          ⟨[(.atom (.int 101), ⟨"elem", none⟩)]⟩))
    ∧ ((⟨"any", .pynone, .pynone, some 0⟩ : ResourceSpec).make_persistent
        ⟨[(.dict [("scratch", .pynone), ("num_cores", .int 8)],
           ⟨"elem", none⟩)]⟩ ⟨"x", none⟩
      = .ok (("resources.any", [0], false),
          ⟨"any", .pynone, .pynone, some 0⟩,
          ⟨[(.dict [("scratch", .pynone), ("num_cores", .int 8)],
             ⟨"elem", none⟩)]⟩))
    ∧ ((⟨"any", .pynone, .pynone, some 7⟩ : ResourceSpec).make_persistent
        ⟨[]⟩ ⟨"x", none⟩ = .error (.runtimeError "ResourceSpec" [7]))
    ∧ ((⟨"any", .pynone, .pynone, some 0⟩ : ResourceSpec).make_persistent
        ⟨[(.dict [("scratch", .pynone), ("num_cores", .int 8)],
           ⟨"elem", none⟩)]⟩ ⟨"y", none⟩
      = .ok (("resources.any", [0], false),
          ⟨"any", .pynone, .pynone, some 0⟩,
          ⟨[(.dict [("scratch", .pynone), ("num_cores", .int 8)],
             ⟨"elem", none⟩)]⟩)) := by
  refine ⟨?_, ?_, ?_, ?_, ?_, ?_, ?_, ?_, ?_⟩
  · exact (C2_claim
      ⟨"inputs.p1", 0, false, none, some [0], some ⟨"p1", false, none⟩⟩
      ⟨⟨"p1", false, none⟩, none, .atom .pynone, some 0⟩
      ⟨"any", .pynone, .pynone, some 0⟩
      ⟨[(.atom (.int 101), ⟨"elem", some 0⟩)]⟩ ⟨[]⟩ ⟨"x", none⟩ ⟨"y", none⟩
      [0] 0 ("", [], false)
      ⟨"", 0, false, none, none, none⟩
      ⟨⟨"", false, none⟩, none, .atom .pynone, none⟩
      ⟨"", .pynone, .pynone, none⟩).1 rfl (by decide)
  · exact (C2_claim
      ⟨"inputs.p1", 0, false, none, some [5], some ⟨"p1", false, none⟩⟩
      ⟨⟨"p1", false, none⟩, none, .atom .pynone, some 0⟩
      ⟨"any", .pynone, .pynone, some 0⟩
      ⟨[]⟩ ⟨[]⟩ ⟨"x", none⟩ ⟨"y", none⟩
      [5] 0 ("", [], false)
      ⟨"", 0, false, none, none, none⟩
      ⟨⟨"", false, none⟩, none, .atom .pynone, none⟩
      ⟨"", .pynone, .pynone, none⟩).2.1 rfl (by decide)
  · exact (C2_claim
      ⟨"inputs.p1", 0, false, some [.atom (.int 101)], none,
        some ⟨"p1", false, none⟩⟩
      ⟨⟨"p1", false, none⟩, none, .atom .pynone, some 0⟩
      ⟨"any", .pynone, .pynone, some 0⟩
      ⟨[]⟩ ⟨[(.atom (.int 101), ⟨"elem", some 0⟩)]⟩ ⟨"elem", none⟩ ⟨"y", none⟩
      [0] 0 ("inputs.p1", [0], true)
      ⟨"inputs.p1", 0, false, none, some [0], some ⟨"p1", false, none⟩⟩
      ⟨⟨"", false, none⟩, none, .atom .pynone, none⟩
      ⟨"", .pynone, .pynone, none⟩).2.2.1 (by decide)
  · exact (C2_claim
      ⟨"", 0, false, none, none, none⟩
      ⟨⟨"p1", false, none⟩, none, .atom .pynone, some 0⟩
      ⟨"any", .pynone, .pynone, some 0⟩
      ⟨[(.atom (.int 101), ⟨"elem", none⟩)]⟩ ⟨[]⟩ ⟨"x", none⟩ ⟨"y", none⟩
      [] 0 ("", [], false)
      ⟨"", 0, false, none, none, none⟩
      ⟨⟨"", false, none⟩, none, .atom .pynone, none⟩
      ⟨"", .pynone, .pynone, none⟩).2.2.2.1 rfl (by decide)
  · exact (C2_claim
      ⟨"", 0, false, none, none, none⟩
      ⟨⟨"p1", false, none⟩, none, .atom .pynone, some 3⟩
      ⟨"any", .pynone, .pynone, some 0⟩
      ⟨[]⟩ ⟨[]⟩ ⟨"x", none⟩ ⟨"y", none⟩
      [] 3 ("", [], false)
      ⟨"", 0, false, none, none, none⟩
      ⟨⟨"", false, none⟩, none, .atom .pynone, none⟩
      ⟨"", .pynone, .pynone, none⟩).2.2.2.2.1 rfl (by decide)
  · exact (C2_claim
      ⟨"", 0, false, none, none, none⟩
      ⟨⟨"p1", false, none⟩, none, .atom (.int 101), none⟩
      ⟨"any", .pynone, .pynone, some 0⟩
      ⟨[]⟩ ⟨[(.atom (.int 101), ⟨"elem", none⟩)]⟩ ⟨"elem", none⟩ ⟨"y", none⟩
      [] 0 ("inputs.p1", [0], true)
      ⟨"", 0, false, none, none, none⟩
      ⟨⟨"p1", false, none⟩, none, .atom .pynone, some 0⟩
      ⟨"", .pynone, .pynone, none⟩).2.2.2.2.2.1 (by decide)
  · exact (C2_claim
      ⟨"", 0, false, none, none, none⟩
      ⟨⟨"", false, none⟩, none, .atom .pynone, none⟩
      ⟨"any", .pynone, .pynone, some 0⟩
      ⟨[(.dict [("scratch", .pynone), ("num_cores", .int 8)], ⟨"elem", none⟩)]⟩
      ⟨[]⟩ ⟨"x", none⟩ ⟨"y", none⟩
      [] 0 ("", [], false)
      ⟨"", 0, false, none, none, none⟩
      ⟨⟨"", false, none⟩, none, .atom .pynone, none⟩
      ⟨"", .pynone, .pynone, none⟩).2.2.2.2.2.2.1 rfl (by decide)
  · exact (C2_claim
      ⟨"", 0, false, none, none, none⟩
      ⟨⟨"", false, none⟩, none, .atom .pynone, none⟩
      ⟨"any", .pynone, .pynone, some 7⟩
      ⟨[]⟩ ⟨[]⟩ ⟨"x", none⟩ ⟨"y", none⟩
      [] 7 ("", [], false)
      ⟨"", 0, false, none, none, none⟩
      ⟨⟨"", false, none⟩, none, .atom .pynone, none⟩
      ⟨"", .pynone, .pynone, none⟩).2.2.2.2.2.2.2.1 rfl (by decide)
  · exact (C2_claim
      ⟨"", 0, false, none, none, none⟩
      ⟨⟨"", false, none⟩, none, .atom .pynone, none⟩
      ⟨"any", .pynone, .int 8, none⟩
      ⟨[]⟩ ⟨[(.dict [("scratch", .pynone), ("num_cores", .int 8)],
        ⟨"elem", none⟩)]⟩ ⟨"elem", none⟩ ⟨"y", none⟩
      [] 0 ("resources.any", [0], true)
      ⟨"", 0, false, none, none, none⟩
      ⟨⟨"", false, none⟩, none, .atom .pynone, none⟩
      ⟨"any", .pynone, .pynone, some 0⟩).2.2.2.2.2.2.2.2 (by decide)

/-! Lemmas about the decimal print/parse model (Python `str` / `int`). -/

theorem map_self_of_fixed {α : Type} (f : α → α) :
    ∀ (l : List α), (∀ c ∈ l, f c = c) → l.map f = l := by
  intro l
  induction l with
  | nil => intro _; rfl
  | cons c cs ih =>
    intro h
    rw [List.map_cons, h c (List.mem_cons_self c cs),
      ih (fun d hd => h d (List.mem_cons_of_mem c hd))]

theorem digitToChar_isDigit (d : Nat) (h : d < 10) :
    isDigitChar (digitToChar d) = true ∧ digitVal (digitToChar d) = d := by
  interval_cases d <;> exact ⟨by decide, by decide⟩

theorem isDigitChar_lower (c : Char) (h : isDigitChar c = true) :
    asciiLowerChar c = c := by
  simp only [isDigitChar, Bool.decide_and, Bool.and_eq_true,
    decide_eq_true_eq] at h
  simp only [asciiLowerChar]
  rw [if_neg]
  rintro ⟨h1, _⟩
  omega

theorem isDigitChar_ne_dot (c : Char) (h : isDigitChar c = true) : c ≠ '.' := by
  intro he
  subst he
  simp [isDigitChar] at h

theorem isDigitChar_ne_minus (c : Char) (h : isDigitChar c = true) :
    c ≠ '-' := by
  intro he
  subst he
  simp [isDigitChar] at h

theorem natToChars_all (fuel : Nat) :
    ∀ n, n ≤ fuel → (natToChars fuel n).all isDigitChar = true := by
  induction fuel with
  | zero => intro n _; rfl
  | succ f ih =>
    intro n hn
    by_cases h0 : n = 0
    · simp [natToChars, h0]
    · simp only [natToChars, if_neg h0, List.all_append, Bool.and_eq_true]
      constructor
      · exact ih (n / 10) (by omega)
      · simp [(digitToChar_isDigit (n % 10) (Nat.mod_lt n (by omega))).1]

theorem natToChars_ne_nil (fuel n : Nat) (hn : n ≤ fuel) (h0 : n ≠ 0) :
    natToChars fuel n ≠ [] := by
  cases fuel with
  | zero => omega
  | succ f =>
    simp only [natToChars, if_neg h0]
    intro h
    exact absurd (List.append_eq_nil.mp h).2 (by simp)

theorem natToChars_foldl (fuel : Nat) :
    ∀ n a, n ≤ fuel →
      (natToChars fuel n).foldl (fun a c => a * 10 + digitVal c) a
        = a * 10 ^ (natToChars fuel n).length + n := by
  induction fuel with
  | zero =>
    intro n a hn
    have h0 : n = 0 := by omega
    subst h0
    simp [natToChars]
  | succ f ih =>
    intro n a hn
    by_cases h0 : n = 0
    · simp [natToChars, h0]
    · simp only [natToChars, if_neg h0, List.foldl_append, List.length_append]
      rw [ih (n / 10) a (by omega)]
      simp only [List.foldl_cons, List.foldl_nil, List.length_cons,
        List.length_nil]
      rw [(digitToChar_isDigit (n % 10) (Nat.mod_lt n (by omega))).2]
      have hdm : n / 10 * 10 + n % 10 = n := by omega
      have : (a * 10 ^ (natToChars f (n / 10)).length + n / 10) * 10 + n % 10
          = a * 10 ^ ((natToChars f (n / 10)).length + (0 + 1))
            + (n / 10 * 10 + n % 10) := by
        ring
      rw [this, hdm]

theorem parseNat_natToStr (n : Nat) :
    parseNatChars (natToStrPy n).data = some n := by
  by_cases h0 : n = 0
  · subst h0
    decide
  · simp only [natToStrPy, if_neg h0]
    show parseNatChars (natToChars n n) = some n
    rw [parseNatChars, if_pos ⟨natToChars_ne_nil n n le_rfl h0,
      natToChars_all n n le_rfl⟩]
    rw [natToChars_foldl n n 0 le_rfl]
    simp

theorem natToStr_head_digit (n : Nat) :
    ∃ c rest, (natToStrPy n).data = c :: rest ∧ isDigitChar c = true := by
  by_cases h0 : n = 0
  · subst h0
    exact ⟨'0', [], rfl, by decide⟩
  · have hne := natToChars_ne_nil n n le_rfl h0
    have hall := natToChars_all n n le_rfl
    cases hc : natToChars n n with
    | nil => exact absurd hc hne
    | cons c rest =>
      refine ⟨c, rest, ?_, ?_⟩
      · simp only [natToStrPy, if_neg h0]
        show natToChars n n = c :: rest
        exact hc
      · rw [hc, List.all_cons, Bool.and_eq_true] at hall
        exact hall.1

theorem parseIntPy_of_digit_head (s : String) (c : Char) (rest : List Char)
    (hdata : s.data = c :: rest) (hc : c ≠ '-') :
    parseIntPy s = match parseNatChars s.data with
      | some k => some ((k : Int))
      | none => none := by
  unfold parseIntPy
  rw [hdata]
  split
  · rename_i r heq
    rw [List.cons.injEq] at heq
    exact absurd heq.1 hc
  · rfl

theorem parseInt_intToStr (n : Int) : parseIntPy (intToStrPy n) = some n := by
  cases n with
  | ofNat m =>
    show parseIntPy (natToStrPy m) = some (Int.ofNat m)
    obtain ⟨c, rest, hdata, hdig⟩ := natToStr_head_digit m
    rw [parseIntPy_of_digit_head (natToStrPy m) c rest hdata
      (isDigitChar_ne_minus c hdig)]
    rw [parseNat_natToStr m]
    rfl
  | negSucc m =>
    show parseIntPy (String.mk ('-' :: (natToStrPy (m + 1)).data)) = _
    unfold parseIntPy
    show (match parseNatChars (natToStrPy (m + 1)).data with
      | some k => some (-(k : Int))
      | none => none) = _
    rw [parseNat_natToStr (m + 1)]
    simp [Int.negSucc_eq]

theorem intToStr_chars_ok (n : Int) :
    ((intToStrPy n).data.map asciiLowerChar = (intToStrPy n).data)
    ∧ (∀ c ∈ (intToStrPy n).data, c ≠ '.') := by
  have hnat : ∀ m : Nat, ((natToStrPy m).data.map asciiLowerChar
      = (natToStrPy m).data) ∧ (∀ c ∈ (natToStrPy m).data, c ≠ '.') := by
    intro m
    have hall : (natToStrPy m).data.all isDigitChar = true := by
      by_cases h0 : m = 0
      · subst h0; decide
      · simp only [natToStrPy, if_neg h0]
        exact natToChars_all m m le_rfl
    rw [List.all_eq_true] at hall
    constructor
    · exact map_self_of_fixed asciiLowerChar _
        (fun c hc => isDigitChar_lower c (hall c hc))
    · intro c hc
      exact isDigitChar_ne_dot c (hall c hc)
  cases n with
  | ofNat m => exact hnat m
  | negSucc m =>
    have h := hnat (m + 1)
    constructor
    · show ('-' :: (natToStrPy (m + 1)).data).map asciiLowerChar = _
      rw [List.map_cons, h.1]
      rfl
    · intro c hc
      rcases List.mem_cons.mp hc with h1 | h2
      · subst h1; decide
      · exact h.2 c h2

/-! Lemmas about dot-splitting. -/

theorem splitCharsOnDot_cons_dot (l : List Char) :
    splitCharsOnDot ('.' :: l) = "" :: splitCharsOnDot l := by
  simp [splitCharsOnDot]

theorem splitCharsOnDot_ne_nil : ∀ l : List Char, splitCharsOnDot l ≠ [] := by
  intro l
  cases l with
  | nil => simp [splitCharsOnDot]
  | cons c cs =>
    simp only [splitCharsOnDot]
    by_cases hc : c = '.'
    · simp [hc]
    · rw [if_neg hc]
      cases splitCharsOnDot cs <;> simp

theorem splitCharsOnDot_append_dotfree :
    ∀ (l1 l2 : List Char), (∀ c ∈ l1, c ≠ '.') →
      ∀ r rs, splitCharsOnDot l2 = r :: rs →
      splitCharsOnDot (l1 ++ l2) = String.mk (l1 ++ r.data) :: rs := by
  intro l1
  induction l1 with
  | nil =>
    intro l2 _ r rs hs
    simpa using hs
  | cons c cs ih =>
    intro l2 h r rs hs
    have hc : c ≠ '.' := h c (List.mem_cons_self c cs)
    have hrec := ih l2 (fun d hd => h d (List.mem_cons_of_mem c hd)) r rs hs
    show splitCharsOnDot (c :: (cs ++ l2)) = _
    simp only [splitCharsOnDot, if_neg hc, hrec]
    simp

theorem splitCharsOnDot_dotfree :
    ∀ (l : List Char), (∀ c ∈ l, c ≠ '.') →
      splitCharsOnDot l = [String.mk l] := by
  intro l
  induction l with
  | nil => intro _; rfl
  | cons c cs ih =>
    intro h
    have hc : c ≠ '.' := h c (List.mem_cons_self c cs)
    have hrec := ih (fun d hd => h d (List.mem_cons_of_mem c hd))
    simp only [splitCharsOnDot, if_neg hc, hrec]

theorem splitCharsOnDot_dot_sep (l1 rest : List Char)
    (h : ∀ c ∈ l1, c ≠ '.') :
    splitCharsOnDot (l1 ++ '.' :: rest) = String.mk l1 :: splitCharsOnDot rest := by
  cases hs : splitCharsOnDot rest with
  | nil => exact absurd hs (splitCharsOnDot_ne_nil rest)
  | cons r rs =>
    rw [splitCharsOnDot_append_dotfree l1 ('.' :: rest) h ("" : String)
      (r :: rs) (by rw [splitCharsOnDot_cons_dot, hs])]
    simp

theorem pySplitDot_lower_two (mid last : String)
    (hm1 : mid.data.map asciiLowerChar = mid.data)
    (hm2 : ∀ c ∈ mid.data, c ≠ '.')
    (hl1 : last.data.map asciiLowerChar = last.data)
    (hl2 : ∀ c ∈ last.data, c ≠ '.') (headS : String)
    (hh1 : headS.data.map asciiLowerChar = headS.data)
    (hh2 : ∀ c ∈ headS.data, c ≠ '.') :
    pySplitDot (pyLower (headS ++ "." ++ (mid ++ "." ++ last)))
      = [headS, mid, last] := by
  have hdata : (headS ++ "." ++ (mid ++ "." ++ last)).data
      = headS.data ++ '.' :: (mid.data ++ '.' :: last.data) := by
    show headS.data ++ ['.'] ++ (mid.data ++ ['.'] ++ last.data) = _
    simp
  unfold pySplitDot pyLower
  show splitCharsOnDot (((headS ++ "." ++ (mid ++ "." ++ last)).data).map
    asciiLowerChar) = _
  rw [hdata, List.map_append, List.map_cons, List.map_append, List.map_cons,
    hh1, hm1, hl1, show asciiLowerChar '.' = '.' from by decide]
  rw [splitCharsOnDot_dot_sep headS.data _ hh2,
    splitCharsOnDot_dot_sep mid.data _ hm2,
    splitCharsOnDot_dotfree last.data hl2]

theorem pySplitDot_lower_one (mid : String)
    (hm1 : mid.data.map asciiLowerChar = mid.data)
    (hm2 : ∀ c ∈ mid.data, c ≠ '.') (headS : String)
    (hh1 : headS.data.map asciiLowerChar = headS.data)
    (hh2 : ∀ c ∈ headS.data, c ≠ '.') :
    pySplitDot (pyLower (headS ++ "." ++ mid)) = [headS, mid] := by
  have hdata : (headS ++ "." ++ mid).data
      = headS.data ++ '.' :: mid.data := by
    show headS.data ++ ['.'] ++ mid.data = _
    simp
  unfold pySplitDot pyLower
  show splitCharsOnDot (((headS ++ "." ++ mid).data).map asciiLowerChar) = _
  rw [hdata, List.map_append, List.map_cons, hh1, hm1,
    show asciiLowerChar '.' = '.' from by decide]
  rw [splitCharsOnDot_dot_sep headS.data _ hh2,
    splitCharsOnDot_dotfree mid.data hm2]

theorem pyIntOrStr_intToStr (n : Int) :
    pyIntOrStr (intToStrPy n) = .intRef n := by
  unfold pyIntOrStr
  rw [parseInt_intToStr]

/-- C3 counterexample: the elements filter does NOT survive the round trip —
`to_string` appends it as a bracketed comma-list, producing a fourth
dot-token that `_parse_from_string` rejects as an arity violation
(`ValueError`); and a numeric-string reference does not survive either
(parsing converts it to an integer, and `__eq__` distinguishes the two). -/
theorem C3_counterexample :
    ((InputSource.task (.intRef 0) none (some [1, 2])).to_string
      = "task.0.output.[1,2]")
    ∧ (InputSource.from_string "task.0.output.[1,2]"
      = .error (.valueErrorNotUnderstood "task.0.output.[1,2]"))
    ∧ (InputSource.from_string ((InputSource.import_ (.strRef "5")).to_string)
      = .ok (InputSource.import_ (.intRef 5)))
    ∧ InputSource.import_ (.strRef "5") ≠ InputSource.import_ (.intRef 5) := by
  refine ⟨by decide, by decide, by decide, by decide⟩

/-- C3 (amended): for every `InputSource` built by a variant constructor with
an integer reference and no elements filter, parsing the serialized string
yields an equal `InputSource`: `parse(serialize(x)) == x` for `LOCAL`,
`DEFAULT`, `IMPORT` and `TASK` (any task-source type, including the `OUTPUT`
default); the elements filter and non-integer references do not survive the
round trip (see the counterexample). -/
theorem C3_claim :
    (InputSource.from_string (InputSource.local.to_string)
      = .ok InputSource.local)
    ∧ (InputSource.from_string (InputSource.default.to_string)
      = .ok InputSource.default)
    ∧ (∀ n : Int,
        InputSource.from_string ((InputSource.import_ (.intRef n)).to_string)
          = .ok (InputSource.import_ (.intRef n)))
    ∧ (∀ (n : Int) (tst : Option TaskSourceType),
        InputSource.from_string
            ((InputSource.task (.intRef n) tst none).to_string)
          = .ok (InputSource.task (.intRef n) tst none)) := by
  refine ⟨by decide, by decide, ?_, ?_⟩
  · intro n
    obtain ⟨hn1, hn2⟩ := intToStr_chars_ok n
    unfold InputSource.from_string InputSource.parse_from_string
    rw [show (InputSource.import_ (.intRef n)).to_string
      = "import" ++ "." ++ intToStrPy n from rfl]
    rw [pySplitDot_lower_one (intToStrPy n) hn1 hn2 "import" (by decide)
      (by decide)]
    show (match Except.ok (ParsedSource.mk .IMPORT
        (some (pyIntOrStr (intToStrPy n))) none none) with
      | .error e => Except.error e
      | .ok p => InputSource.make p.source_type p.import_ref p.task_ref
          p.task_source_type none none none) = _
    rw [pyIntOrStr_intToStr]
    rfl
  · intro n tst
    obtain ⟨hn1, hn2⟩ := intToStr_chars_ok n
    have htask : ∀ tname : TaskSourceType,
        InputSource.from_string
            ((InputSource.task (.intRef n) (some tname) none).to_string)
          = .ok (InputSource.task (.intRef n) (some tname) none) := by
      intro tname
      unfold InputSource.from_string InputSource.parse_from_string
      cases tname with
      | INPUT =>
        rw [show (InputSource.task (.intRef n) (some .INPUT) none).to_string
          = "task" ++ "." ++ (intToStrPy n ++ "." ++ "input") from rfl]
        rw [pySplitDot_lower_two (intToStrPy n) "input" hn1 hn2 (by decide)
          (by decide) "task" (by decide) (by decide)]
        rw [show parseParts
            ("task" ++ "." ++ (intToStrPy n ++ "." ++ "input"))
            ["task", intToStrPy n, "input"]
          = .ok ⟨.TASK, none, some (pyIntOrStr (intToStrPy n)),
              some .INPUT⟩ from rfl]
        rw [pyIntOrStr_intToStr]
        rfl
      | OUTPUT =>
        rw [show (InputSource.task (.intRef n) (some .OUTPUT) none).to_string
          = "task" ++ "." ++ (intToStrPy n ++ "." ++ "output") from rfl]
        rw [pySplitDot_lower_two (intToStrPy n) "output" hn1 hn2 (by decide)
          (by decide) "task" (by decide) (by decide)]
        rw [show parseParts
            ("task" ++ "." ++ (intToStrPy n ++ "." ++ "output"))
            ["task", intToStrPy n, "output"]
          = .ok ⟨.TASK, none, some (pyIntOrStr (intToStrPy n)),
              some .OUTPUT⟩ from rfl]
        rw [pyIntOrStr_intToStr]
        rfl
      | ANY =>
        rw [show (InputSource.task (.intRef n) (some .ANY) none).to_string
          = "task" ++ "." ++ (intToStrPy n ++ "." ++ "any") from rfl]
        rw [pySplitDot_lower_two (intToStrPy n) "any" hn1 hn2 (by decide)
          (by decide) "task" (by decide) (by decide)]
        rw [show parseParts
            ("task" ++ "." ++ (intToStrPy n ++ "." ++ "any"))
            ["task", intToStrPy n, "any"]
          = .ok ⟨.TASK, none, some (pyIntOrStr (intToStrPy n)),
              some .ANY⟩ from rfl]
        rw [pyIntOrStr_intToStr]
        rfl
    cases tst with
    | none => exact htask .OUTPUT
    | some t => exact htask t

/-- C4 counterexample: a bare `task` string (no reference token) fails with
`IndexError` from `parts[1]`, not with a value error; and an arity violation
such as `local.x` raises `ValueError` whose message carries only the whole
string (`InputSource string not understood: ...`), naming neither an
offending token nor the allowed set. -/
theorem C4_counterexample :
    (InputSource.from_string "task" = .error .indexError)
    ∧ PyErr.indexError.isValueError = false
    ∧ (InputSource.from_string "import" = .error .indexError)
    ∧ (InputSource.from_string "local.x"
      = .error (.valueErrorNotUnderstood "local.x")) := by
  refine ⟨by decide, by decide, by decide, by decide⟩

/-- C4 (amended): parsing an input-source string never partially constructs
an `InputSource`; an unrecognized variant token fails with a `ValueError`
naming the token and the allowed set, and an unrecognized task-source-type
token likewise; too many tokens (`local`/`default` with any extra token,
`import` with more than one, `task` with more than two) fail with
`ValueError("InputSource string not understood: ...")` carrying the whole
string only; a bare `task` or `import` with no reference token fails with
`IndexError`; and a task string whose task-source-type token is omitted
defaults it to `output`. -/
theorem C4_claim : ∀ (s t r t2 : String) (ps : List String),
    (pySplitDot (pyLower s) = t :: ps → sourceTypeOfToken t = none →
      InputSource.from_string s = .error (.valueErrorBadSourceType t))
    ∧ (pySplitDot (pyLower s) = t :: ps →
        (sourceTypeOfToken t = some .LOCAL
          ∨ sourceTypeOfToken t = some .DEFAULT) → ps ≠ [] →
        InputSource.from_string s = .error (.valueErrorNotUnderstood s))
    ∧ (pySplitDot (pyLower s) = t :: ps → sourceTypeOfToken t = some .TASK →
        ps.length > 2 →
        InputSource.from_string s = .error (.valueErrorNotUnderstood s))
    ∧ (pySplitDot (pyLower s) = t :: ps → sourceTypeOfToken t = some .IMPORT →
        ps.length > 1 →
        InputSource.from_string s = .error (.valueErrorNotUnderstood s))
    ∧ (pySplitDot (pyLower s) = [t] → sourceTypeOfToken t = some .TASK →
        InputSource.from_string s = .error .indexError)
    ∧ (pySplitDot (pyLower s) = [t] → sourceTypeOfToken t = some .IMPORT →
        InputSource.from_string s = .error .indexError)
    ∧ (pySplitDot (pyLower s) = [t, r, t2] → sourceTypeOfToken t = some .TASK →
        taskSourceTypeOfToken t2 = none →
        InputSource.from_string s = .error (.valueErrorBadTaskSourceType t2))
    ∧ (pySplitDot (pyLower s) = [t, r] → sourceTypeOfToken t = some .TASK →
        InputSource.from_string s
          = .ok ⟨.TASK, none, some (pyIntOrStr r), some .OUTPUT, none, none,
              none⟩) := by
  intro s t r t2 ps
  refine ⟨?_, ?_, ?_, ?_, ?_, ?_, ?_, ?_⟩
  · intro hsplit htok
    unfold InputSource.from_string InputSource.parse_from_string
    rw [hsplit]
    simp [parseParts, List.headD, validate_source_type_str, htok]
  · intro hsplit htok hps
    unfold InputSource.from_string InputSource.parse_from_string
    rw [hsplit]
    have h0 : 0 < ps.length := List.length_pos.mpr hps
    rcases htok with htok | htok <;>
      simp [parseParts, List.headD, validate_source_type_str, htok, h0]
  · intro hsplit htok hlen
    unfold InputSource.from_string InputSource.parse_from_string
    rw [hsplit]
    have hlen3 : 3 < ps.length + 1 := by omega
    simp [parseParts, List.headD, validate_source_type_str, htok, hlen3]
  · intro hsplit htok hlen
    unfold InputSource.from_string InputSource.parse_from_string
    rw [hsplit]
    have hlen2 : 2 < ps.length + 1 := by omega
    simp [parseParts, List.headD, validate_source_type_str, htok, hlen2]
  · intro hsplit htok
    unfold InputSource.from_string InputSource.parse_from_string
    rw [hsplit]
    simp [parseParts, List.headD, validate_source_type_str, htok]
  · intro hsplit htok
    unfold InputSource.from_string InputSource.parse_from_string
    rw [hsplit]
    simp [parseParts, List.headD, validate_source_type_str, htok]
  · intro hsplit htok htok2
    unfold InputSource.from_string InputSource.parse_from_string
    rw [hsplit]
    simp [parseParts, List.headD, validate_source_type_str, htok,
      validate_task_source_type_str, htok2]
  · intro hsplit htok
    unfold InputSource.from_string InputSource.parse_from_string
    rw [hsplit]
    simp [parseParts, List.headD, validate_source_type_str, htok,
      InputSource.make]

/-- C4 witness: concrete malformed and defaulting inputs for every part. -/
theorem C4_witness :
    (InputSource.from_string "bogus.x"
      = .error (.valueErrorBadSourceType "bogus"))
    ∧ (InputSource.from_string "local.x"
      = .error (.valueErrorNotUnderstood "local.x"))
    ∧ (InputSource.from_string "task.1.output.x"
      = .error (.valueErrorNotUnderstood "task.1.output.x"))
    ∧ (InputSource.from_string "import.1.2"
      = .error (.valueErrorNotUnderstood "import.1.2"))
    ∧ (InputSource.from_string "task" = .error .indexError)
    ∧ (InputSource.from_string "import" = .error .indexError)
    ∧ (InputSource.from_string "task.1.bogus"
      = .error (.valueErrorBadTaskSourceType "bogus"))
    ∧ (InputSource.from_string "task.7"
      = .ok ⟨.TASK, none, some (pyIntOrStr "7"), some .OUTPUT, none, none,
          none⟩) := by
  refine ⟨?_, ?_, ?_, ?_, ?_, ?_, ?_, ?_⟩
  · exact (C4_claim "bogus.x" "bogus" "" "" ["x"]).1 (by decide) (by decide)
  · exact (C4_claim "local.x" "local" "" "" ["x"]).2.1 (by decide)
      (Or.inl (by decide)) (by decide)
  · exact (C4_claim "task.1.output.x" "task" "" "" ["1", "output", "x"]).2.2.1
      (by decide) (by decide) (by decide)
  · exact (C4_claim "import.1.2" "import" "" "" ["1", "2"]).2.2.2.1
      (by decide) (by decide) (by decide)
  · exact (C4_claim "task" "task" "" "" []).2.2.2.2.1 (by decide) (by decide)
  · exact (C4_claim "import" "import" "" "" []).2.2.2.2.2.1 (by decide)
      (by decide)
  · exact (C4_claim "task.1.bogus" "task" "1" "bogus" []).2.2.2.2.2.2.1
      (by decide) (by decide) (by decide)
  · exact (C4_claim "task.7" "task" "7" "" []).2.2.2.2.2.2.2 (by decide)
      (by decide)

end HpcFlow
